import Mathlib

/-!
Verification development for the UAV GPS-denied navigation simulator
(backend core: Matrix, PhysicsEngine, SensorSimulator, NavigationEngine,
MissionSimulator, Simulator).

Modelling conventions, applied uniformly:

* Python floats are modelled as exact rationals (`ℚ`).  Every boundary fact
  used below was checked against IEEE double behaviour at the concrete
  inputs involved (e.g. `5.9 + 0.1` is exactly `6.0` in doubles, and
  `int(3.0/0.1) = 30`, `int(1.0/0.1) = 10`, matching the rational values).
* Gaussian and uniform random draws are data inputs: each `random.gauss`
  / `random.random()` call site receives the realized draw as an explicit
  rational argument.  The standard deviations only shape the distribution
  of the draw, never the data flow, so they do not appear in the model.
* A Python method that mutates its object and can raise is modelled as a
  function returning the new object, paired with `Option String`
  (the raised message) when the raise happens after partial mutation is
  impossible (the source raises before any field assignment), or as
  `Except String _` when the caller only observes the exception.
* A 2-D Python list of floats is modelled as a total entry function
  `ℕ → ℕ → ℚ` together with the dimensions; out-of-range reads return `0`,
  matching the all-zero initialization (the source never reads or writes
  out of range: every access is guarded by the construction-time bounds).
-/

namespace UAV

/-- Matrix from src/backend/src/Matrix.py: a `rows`×`cols` grid of numbers.
`data` is total; entries outside the grid are `0` (see file header). -/
structure Matrix where
  rows : ℕ
  cols : ℕ
  data : ℕ → ℕ → ℚ

/-- `Matrix(rows, cols, initial_value)`: grid filled with `initial_value`. -/
def Matrix.new (rows cols : ℕ) (initial_value : ℚ) : Matrix :=
  ⟨rows, cols, fun i j => if i < rows ∧ j < cols then initial_value else 0⟩

/-- `get(row, col)`. -/
def Matrix.get (A : Matrix) (row col : ℕ) : ℚ := A.data row col

/-- `set(row, col, value)` (all source call sites are in bounds). -/
def Matrix.set (A : Matrix) (row col : ℕ) (value : ℚ) : Matrix :=
  ⟨A.rows, A.cols, fun i j => if i = row ∧ j = col then value else A.data i j⟩

/-- `copy()`: value semantics make this the identity. -/
def Matrix.copy (A : Matrix) : Matrix := A

/-- `identity(size)`: zeros with `1.0` set on the diagonal. -/
def Matrix.identity (size : ℕ) : Matrix :=
  ⟨size, size, fun i j => if i = j ∧ i < size then 1 else 0⟩

/-- Core of `multiply(A, B)` (the triple loop), without the dimension
check; entries outside the result grid stay `0`. -/
def Matrix.multiplyU (A B : Matrix) : Matrix :=
  ⟨A.rows, B.cols, fun i j =>
    if i < A.rows ∧ j < B.cols then
      ∑ k in Finset.range A.cols, A.get i k * B.get k j
    else 0⟩

/-- `multiply(A, B)`: raises on `A.cols != B.rows`, else the triple loop. -/
def Matrix.multiply (A B : Matrix) : Except String Matrix :=
  if A.cols = B.rows then Except.ok (A.multiplyU B)
  else Except.error "Cannot multiply: dimension mismatch"

/-- Core of `add(A, B)` without the dimension check. -/
def Matrix.addU (A B : Matrix) : Matrix :=
  ⟨A.rows, A.cols, fun i j =>
    if i < A.rows ∧ j < A.cols then A.get i j + B.get i j else 0⟩

/-- `add(A, B)`: raises unless dimensions agree. -/
def Matrix.add (A B : Matrix) : Except String Matrix :=
  if A.rows = B.rows ∧ A.cols = B.cols then Except.ok (A.addU B)
  else Except.error "Matrices must have same dimensions for addition"

/-- Core of `subtract(A, B)` without the dimension check. -/
def Matrix.subtractU (A B : Matrix) : Matrix :=
  ⟨A.rows, A.cols, fun i j =>
    if i < A.rows ∧ j < A.cols then A.get i j - B.get i j else 0⟩

/-- `subtract(A, B)`: raises unless dimensions agree. -/
def Matrix.subtract (A B : Matrix) : Except String Matrix :=
  if A.rows = B.rows ∧ A.cols = B.cols then Except.ok (A.subtractU B)
  else Except.error "Matrices must have same dimensions for subtraction"

/-- `transpose(A)`. -/
def Matrix.transpose (A : Matrix) : Matrix :=
  ⟨A.cols, A.rows, fun i j =>
    if j < A.rows ∧ i < A.cols then A.get j i else 0⟩

/-- Singularity threshold `1e-10` of `invert_2x2` / `invert_3x3`. -/
def eps : ℚ := 1 / 10 ^ 10

/-- Determinant `a*d - b*c` computed by `invert_2x2`. -/
def Matrix.det2 (A : Matrix) : ℚ :=
  A.get 0 0 * A.get 1 1 - A.get 0 1 * A.get 1 0

/-- The 2×2 inverse grid written by `invert_2x2` on the non-singular path. -/
def Matrix.inv2 (A : Matrix) : Matrix :=
  let a := A.get 0 0
  let b := A.get 0 1
  let c := A.get 1 0
  let d := A.get 1 1
  let det := a * d - b * c
  ((((Matrix.new 2 2 0).set 0 0 (d / det)).set 0 1 (-b / det)).set 1 0
      (-c / det)).set 1 1 (a / det)

/-- `invert_2x2(A)`: dimension check, singularity check, closed form. -/
def Matrix.invert_2x2 (A : Matrix) : Except String Matrix :=
  if ¬(A.rows = 2 ∧ A.cols = 2) then
    Except.error "Can only invert 2x2 matrices with this method"
  else if |A.det2| < eps then
    Except.error "Matrix is singular (determinant is zero)"
  else Except.ok A.inv2

/-- Determinant of the 3×3 cofactor expansion in `invert_3x3`. -/
def Matrix.det3 (A : Matrix) : ℚ :=
  A.get 0 0 * (A.get 1 1 * A.get 2 2 - A.get 1 2 * A.get 2 1) -
  A.get 0 1 * (A.get 1 0 * A.get 2 2 - A.get 1 2 * A.get 2 0) +
  A.get 0 2 * (A.get 1 0 * A.get 2 1 - A.get 1 1 * A.get 2 0)

/-- The 3×3 inverse grid written by `invert_3x3` on the non-singular path. -/
def Matrix.inv3 (A : Matrix) : Matrix :=
  let det := A.det3
  ⟨3, 3, fun i j =>
    if i = 0 ∧ j = 0 then (A.get 1 1 * A.get 2 2 - A.get 1 2 * A.get 2 1) / det
    else if i = 0 ∧ j = 1 then -(A.get 0 1 * A.get 2 2 - A.get 0 2 * A.get 2 1) / det
    else if i = 0 ∧ j = 2 then (A.get 0 1 * A.get 1 2 - A.get 0 2 * A.get 1 1) / det
    else if i = 1 ∧ j = 0 then -(A.get 1 0 * A.get 2 2 - A.get 1 2 * A.get 2 0) / det
    else if i = 1 ∧ j = 1 then (A.get 0 0 * A.get 2 2 - A.get 0 2 * A.get 2 0) / det
    else if i = 1 ∧ j = 2 then -(A.get 0 0 * A.get 1 2 - A.get 0 2 * A.get 1 0) / det
    else if i = 2 ∧ j = 0 then (A.get 1 0 * A.get 2 1 - A.get 1 1 * A.get 2 0) / det
    else if i = 2 ∧ j = 1 then -(A.get 0 0 * A.get 2 1 - A.get 0 1 * A.get 2 0) / det
    else if i = 2 ∧ j = 2 then (A.get 0 0 * A.get 1 1 - A.get 0 1 * A.get 1 0) / det
    else 0⟩

/-- `invert_3x3(A)`. -/
def Matrix.invert_3x3 (A : Matrix) : Except String Matrix :=
  if ¬(A.rows = 3 ∧ A.cols = 3) then
    Except.error "Can only invert 3x3 matrices with this method"
  else if |A.det3| < eps then
    Except.error "Matrix is singular (determinant is zero)"
  else Except.ok A.inv3

/-- `invert()`: dispatch on the dimensions. -/
def Matrix.invert (A : Matrix) : Except String Matrix :=
  if A.rows = 2 ∧ A.cols = 2 then A.invert_2x2
  else if A.rows = 3 ∧ A.cols = 3 then A.invert_3x3
  else Except.error "Cannot invert matrix of this size"

/-!
NavigationEngine from src/backend/src/NavigationEngine.py: a linear Kalman
filter over the state `[x, y, vx, vy]` with 4×4 covariance `P`.
-/

/-- NavigationEngine state: the fields assigned in `__init__`. -/
structure NavigationEngine where
  state : Matrix
  P : Matrix
  dt : ℚ
  F : Matrix
  Q : Matrix
  gps_available : Bool
  last_gps_time : ℚ
  time_since_gps : ℚ
  dead_reckoning_drift : ℚ

/-- `_update_F_matrix`: constant-velocity transition matrix for a given dt. -/
def NavigationEngine.update_F_matrix (dt : ℚ) : Matrix :=
  (((((Matrix.new 4 4 0).set 0 0 1).set 0 2 dt).set 1 1 1).set 1 3
      dt).set 2 2 1 |>.set 3 3 1

/-- `__init__`: zero state, `P = diag(100, 100, 10, 10)`, `dt = 0.1`,
`Q = diag(0.1*0.01, 0.1*0.01, 0.1*0.1, 0.1*0.1)`. -/
def NavigationEngine.init : NavigationEngine :=
  { state := ((((Matrix.new 4 1 0).set 0 0 0).set 1 0 0).set 2 0 0).set 3 0 0
    P := ((((Matrix.new 4 4 0).set 0 0 100).set 1 1 100).set 2 2 10).set 3 3 10
    dt := 1 / 10
    F := NavigationEngine.update_F_matrix (1 / 10)
    Q := ((((Matrix.new 4 4 0).set 0 0 (1 / 10 * (1 / 100))).set 1 1
            (1 / 10 * (1 / 100))).set 2 2 (1 / 10 * (1 / 10))).set 3 3
          (1 / 10 * (1 / 10))
    gps_available := true
    last_gps_time := 0
    time_since_gps := 0
    dead_reckoning_drift := 0 }

/-- `predict()`: `x ← F·x`, `P ← F·P·Fᵀ + Q` (dimensions 4×4/4×1 always
agree, so the checked wrappers' error branches are unreachable and the
unchecked cores are used). -/
def NavigationEngine.predict (nav : NavigationEngine) : NavigationEngine :=
  let state := Matrix.multiplyU nav.F nav.state
  let F_T := Matrix.transpose nav.F
  let temp := Matrix.multiplyU nav.F nav.P
  let P_pred := Matrix.multiplyU temp F_T
  let P := Matrix.addU P_pred nav.Q
  { nav with state := state, P := P,
             time_since_gps := nav.time_since_gps + nav.dt }

/-- GPS observation matrix `H = [[1,0,0,0],[0,1,0,0]]` of `update_gps`. -/
def NavigationEngine.gpsH : Matrix :=
  ((Matrix.new 2 4 0).set 0 0 1).set 1 1 1

/-- GPS measurement noise `R = diag(0.5², 0.5²)` of `update_gps`. -/
def NavigationEngine.gpsR : Matrix :=
  ((Matrix.new 2 2 0).set 0 0 (1 / 4)).set 1 1 (1 / 4)

/-- Innovation covariance `temp3 = H·P·Hᵀ + R` of `update_gps`. -/
def NavigationEngine.gpsS (P : Matrix) : Matrix :=
  Matrix.addU
    (Matrix.multiplyU (Matrix.multiplyU NavigationEngine.gpsH P)
      (Matrix.transpose NavigationEngine.gpsH))
    NavigationEngine.gpsR

/-- Tail of `update_gps` after the inversion succeeded: gain, innovation,
state and covariance update, and the bookkeeping assignments. -/
def NavigationEngine.gpsPost (nav : NavigationEngine) (gps_x gps_y : ℚ)
    (temp3_inv : Matrix) : NavigationEngine :=
  let z := ((Matrix.new 2 1 0).set 0 0 gps_x).set 1 0 gps_y
  let H := NavigationEngine.gpsH
  let H_T := Matrix.transpose H
  let temp4 := Matrix.multiplyU nav.P H_T
  let K := Matrix.multiplyU temp4 temp3_inv
  let temp_hx := Matrix.multiplyU H nav.state
  let y := Matrix.subtractU z temp_hx
  let temp_ky := Matrix.multiplyU K y
  let state := Matrix.addU nav.state temp_ky
  let K_H := Matrix.multiplyU K H
  let I_minus_KH : Matrix :=
    ⟨4, 4, fun i j =>
      if i < 4 ∧ j < 4 then
        (if i = j then 1 - K_H.get i j else -(K_H.get i j))
      else 0⟩
  let P := Matrix.multiplyU I_minus_KH nav.P
  { nav with state := state, P := P, gps_available := true,
             time_since_gps := 0 }

/-- `update_gps(gps_x, gps_y, gps_z)`.  The singular-matrix `ValueError`
raised by `temp3.invert()` happens before any field of the filter is
assigned, so the raising path returns the filter unchanged together with
the raised message; `gps_z` is accepted and ignored, as in the source. -/
def NavigationEngine.update_gps (nav : NavigationEngine)
    (gps_x gps_y gps_z : ℚ) : NavigationEngine × Option String :=
  match (NavigationEngine.gpsS nav.P).invert with
  | Except.error e => (nav, some e)
  | Except.ok temp3_inv => (nav.gpsPost gps_x gps_y temp3_inv, none)

/-- `update_dead_reckoning(accel_x, accel_y)`: integrate accelerations and
inflate the covariance diagonal by 1% per step. -/
def NavigationEngine.update_dead_reckoning (nav : NavigationEngine)
    (accel_x accel_y : ℚ) : NavigationEngine :=
  let vx_current := nav.state.get 2 0
  let vy_current := nav.state.get 3 0
  let vx_new := vx_current + accel_x * nav.dt
  let vy_new := vy_current + accel_y * nav.dt
  let dx := vx_current * nav.dt + 1 / 2 * accel_x * nav.dt ^ 2
  let dy := vy_current * nav.dt + 1 / 2 * accel_y * nav.dt ^ 2
  let x_current := nav.state.get 0 0
  let y_current := nav.state.get 1 0
  let state := (((nav.state.set 0 0 (x_current + dx)).set 1 0
      (y_current + dy)).set 2 0 vx_new).set 3 0 vy_new
  let P := (((nav.P.set 0 0 (nav.P.get 0 0 * (101 / 100))).set 1 1
      (nav.P.get 1 1 * (101 / 100))).set 2 2
      (nav.P.get 2 2 * (101 / 100))).set 3 3 (nav.P.get 3 3 * (101 / 100))
  { nav with state := state, P := P }

/-- Optical-flow observation matrix `H = [[0,0,1,0],[0,0,0,1]]`. -/
def NavigationEngine.flowH : Matrix :=
  ((Matrix.new 2 4 0).set 0 2 1).set 1 3 1

/-- Optical-flow measurement noise `R = diag(0.2², 0.2²)`. -/
def NavigationEngine.flowR : Matrix :=
  ((Matrix.new 2 2 0).set 0 0 (1 / 25)).set 1 1 (1 / 25)

/-- Innovation covariance `temp3 = H·P·Hᵀ + R` of `update_optical_flow`. -/
def NavigationEngine.flowS (P : Matrix) : Matrix :=
  Matrix.addU
    (Matrix.multiplyU (Matrix.multiplyU NavigationEngine.flowH P)
      (Matrix.transpose NavigationEngine.flowH))
    NavigationEngine.flowR

/-- Tail of `update_optical_flow` after the inversion succeeded. -/
def NavigationEngine.flowPost (nav : NavigationEngine) (flow_x flow_y : ℚ)
    (temp3_inv : Matrix) : NavigationEngine :=
  let z := ((Matrix.new 2 1 0).set 0 0 flow_x).set 1 0 flow_y
  let H := NavigationEngine.flowH
  let H_T := Matrix.transpose H
  let temp4 := Matrix.multiplyU nav.P H_T
  let K := Matrix.multiplyU temp4 temp3_inv
  let temp_hx := Matrix.multiplyU H nav.state
  let y := Matrix.subtractU z temp_hx
  let temp_ky := Matrix.multiplyU K y
  let state := Matrix.addU nav.state temp_ky
  let K_H := Matrix.multiplyU K H
  let I_minus_KH : Matrix :=
    ⟨4, 4, fun i j =>
      if i < 4 ∧ j < 4 then
        (if i = j then 1 - K_H.get i j else -(K_H.get i j))
      else 0⟩
  let P := Matrix.multiplyU I_minus_KH nav.P
  { nav with state := state, P := P }

/-- `update_optical_flow(flow_x, flow_y)`: identical algebra with the
velocity observation matrix, except the singular inversion is swallowed by
`try/except` (`return  # Skip update if inversion fails`), so the raising
path is a pure no-op. -/
def NavigationEngine.update_optical_flow (nav : NavigationEngine)
    (flow_x flow_y : ℚ) : NavigationEngine :=
  match (NavigationEngine.flowS nav.P).invert with
  | Except.error _ => nav
  | Except.ok temp3_inv => nav.flowPost flow_x flow_y temp3_inv

/-- Trace of the covariance: `sum(self.P.get(i, i) for i in range(4))`, the
quantity `get_confidence` is computed from and the spec calls `trace(P)`. -/
def NavigationEngine.covTrace (nav : NavigationEngine) : ℚ :=
  ∑ i in Finset.range 4, nav.P.get i i

/-- `get_confidence()`: `max(0, 1 - trace/100)`. -/
def NavigationEngine.get_confidence (nav : NavigationEngine) : ℚ :=
  max 0 (1 - nav.covTrace / 100)

/-- `set_state(x, y, vx, vy)`. -/
def NavigationEngine.set_state (nav : NavigationEngine)
    (x y vx vy : ℚ) : NavigationEngine :=
  { nav with
    state := (((nav.state.set 0 0 x).set 1 0 y).set 2 0 vx).set 3 0 vy }

/-- `get_state()`: the four state entries, as `(x, y, vx, vy)`. -/
def NavigationEngine.get_state (nav : NavigationEngine) : ℚ × ℚ × ℚ × ℚ :=
  (nav.state.get 0 0, nav.state.get 1 0, nav.state.get 2 0, nav.state.get 3 0)

/-!
MissionSimulator from src/backend/src/MissionSimulator.py.

`distance_3d` returns `sqrt(dx²+dy²+dz²)`, an irrational real.  Everywhere
the source consumes it, it is either compared against a threshold (both
sides non-negative, so comparing squares is equivalent — see
`distance_3d_sq` and the guard in `update`) or accumulated into
`total_distance`, a statistic no property under verification reads; the
`total_distance` odometer is therefore left out of the embedding.
-/

/-- MissionSimulator state: the fields assigned in `__init__` (minus the
`total_distance` odometer, see the section comment). -/
structure MissionSimulator where
  waypoints : List (ℚ × ℚ × ℚ)
  current_waypoint_index : ℕ
  waypoint_reached_threshold : ℚ
  current_time : ℚ
  mission_duration : ℚ
  dt : ℚ
  jamming_start_time : ℚ
  jamming_end_time : ℚ
  gps_jammed : Bool
  mission_active : Bool
  mission_complete : Bool
  waypoints_reached : ℕ
  max_error : ℚ
  error_during_jamming : List ℚ
  navigation_mode : String

/-- `__init__`: five waypoints, jamming window 3 s – 6 s, 90 s mission. -/
def MissionSimulator.init : MissionSimulator :=
  { waypoints := [(20, 10, 5), (40, 20, 5), (40, 40, 5), (20, 40, 5), (0, 0, 5)]
    current_waypoint_index := 0
    waypoint_reached_threshold := 2
    current_time := 0
    mission_duration := 90
    dt := 1 / 10
    jamming_start_time := 3
    jamming_end_time := 6
    gps_jammed := false
    mission_active := true
    mission_complete := false
    waypoints_reached := 0
    max_error := 0
    error_during_jamming := []
    navigation_mode := "GPS" }

/-- Squared 3-D distance: `distance_3d(p, q)²` without the square root. -/
def MissionSimulator.distance_3d_sq (pos1 pos2 : ℚ × ℚ × ℚ) : ℚ :=
  (pos2.1 - pos1.1) ^ 2 + (pos2.2.1 - pos1.2.1) ^ 2 + (pos2.2.2 - pos1.2.2) ^ 2

/-- `get_current_waypoint()`: the indexed waypoint, or `waypoints[-1]` when
the index ran past the end.  The `getD`/`getLastD` defaults are never used:
the index branch guarantees the lookup is in range, and `waypoints` is
nonempty in every state the source constructs. -/
def MissionSimulator.get_current_waypoint (m : MissionSimulator) : ℚ × ℚ × ℚ :=
  if m.current_waypoint_index < m.waypoints.length then
    m.waypoints.getD m.current_waypoint_index (0, 0, 0)
  else
    m.waypoints.getLastD (0, 0, 0)

/-- `set_waypoint_reached()`: advance (and count) below the last index,
else mark the mission complete.  (`ℕ` truncated subtraction agrees with the
Python `len(...) - 1` comparison also for an empty list: both take the
`mission_complete` branch.) -/
def MissionSimulator.set_waypoint_reached (m : MissionSimulator) : MissionSimulator :=
  if m.current_waypoint_index < m.waypoints.length - 1 then
    { m with current_waypoint_index := m.current_waypoint_index + 1,
             waypoints_reached := m.waypoints_reached + 1 }
  else
    { m with mission_complete := true }

/-- `update(current_position)`: advance time, recompute the jamming flag
and navigation mode, check the active waypoint, and deactivate the mission
once `current_time >= mission_duration`.  The source compares
`distance_3d(...) < threshold`; since `sqrt` is monotone and non-negative,
that is `0 ≤ threshold ∧ distance² < threshold²`, the guard used here. -/
def MissionSimulator.update (m : MissionSimulator)
    (current_position : ℚ × ℚ × ℚ) : MissionSimulator :=
  let m1 := { m with current_time := m.current_time + m.dt }
  let m2 :=
    if m1.jamming_start_time ≤ m1.current_time ∧
        m1.current_time ≤ m1.jamming_end_time then
      { m1 with gps_jammed := true, navigation_mode := "SENSOR" }
    else
      { m1 with gps_jammed := false, navigation_mode := "GPS" }
  let current_waypoint := m2.get_current_waypoint
  let m3 :=
    if 0 ≤ m2.waypoint_reached_threshold ∧
        MissionSimulator.distance_3d_sq current_position current_waypoint <
          m2.waypoint_reached_threshold ^ 2 then
      m2.set_waypoint_reached
    else m2
  if m3.mission_duration ≤ m3.current_time then
    { m3 with mission_active := false }
  else m3

/-- `update_error(error)`: track the running maximum and, while jammed,
append to the jamming-period list. -/
def MissionSimulator.update_error (m : MissionSimulator) (error : ℚ) :
    MissionSimulator :=
  let m1 := { m with max_error := max m.max_error error }
  if m1.gps_jammed then
    { m1 with error_during_jamming := m1.error_during_jamming ++ [error] }
  else m1

/-- `get_mission_progress()`: `min(1, 0.7·waypoint_progress + 0.3·time_progress)`. -/
def MissionSimulator.get_mission_progress (m : MissionSimulator) : ℚ :=
  let time_progress := m.current_time / m.mission_duration
  let waypoint_progress := (m.waypoints_reached : ℚ) / m.waypoints.length
  min 1 (7 / 10 * waypoint_progress + 3 / 10 * time_progress)

/-- `get_average_error_during_jamming()`. -/
def MissionSimulator.get_average_error_during_jamming (m : MissionSimulator) : ℚ :=
  if m.error_during_jamming.length = 0 then 0
  else m.error_during_jamming.sum / m.error_during_jamming.length

/-- `calculate_success_rate()`: waypoint share of 80 points plus an error
score of up to 20 points, normalized by 100 and capped at 1. -/
def MissionSimulator.calculate_success_rate (m : MissionSimulator) : ℚ :=
  let waypoint_score := (m.waypoints_reached : ℚ) / m.waypoints.length * 80
  let error_score := max 0 (20 - m.max_error * 5)
  let success_rate := (waypoint_score + error_score) / 100
  min 1 success_rate

/-- `get_recovery_time()`: the hardcoded `2.3` once at least two
jamming-period error samples exist, else `0`. -/
def MissionSimulator.get_recovery_time (m : MissionSimulator) : ℚ :=
  if m.error_during_jamming.length < 2 then 0 else 23 / 10

/-- `is_in_jamming_period()`. -/
def MissionSimulator.is_in_jamming_period (m : MissionSimulator) : Bool :=
  m.jamming_start_time ≤ m.current_time ∧ m.current_time ≤ m.jamming_end_time

/-!
SensorSimulator from src/backend/src/SensorSimulator.py.  Every
`random.gauss`/`random.random()` draw is an explicit input (see the file
header); the per-tick draws are bundled in `SensorNoise`.
-/

/-- Realized random draws consumed by one `measure_all` call, one field per
`random.*` call site in source order. -/
structure SensorNoise where
  gps_u : ℚ
  gps_jam_x : ℚ
  gps_jam_y : ℚ
  gps_jam_z : ℚ
  gps_x : ℚ
  gps_y : ℚ
  gps_z : ℚ
  accel_x : ℚ
  accel_y : ℚ
  accel_z : ℚ
  gyro_x : ℚ
  gyro_y : ℚ
  gyro_z : ℚ
  mag : ℚ
  baro : ℚ
  flow_x : ℚ
  flow_y : ℚ

/-- SensorSimulator state: noise parameters plus the mutable jamming state
and drift accumulators of `__init__`. -/
structure SensorSimulator where
  gps_noise_std : ℚ
  accel_noise_std : ℚ
  accel_bias_x : ℚ
  accel_bias_y : ℚ
  accel_bias_z : ℚ
  accel_scale_factor : ℚ
  gyro_noise_std : ℚ
  gyro_bias_x : ℚ
  gyro_bias_y : ℚ
  gyro_bias_z : ℚ
  gyro_scale_factor : ℚ
  mag_noise_std : ℚ
  mag_declination : ℚ
  magnetic_interference : ℚ
  baro_noise_std : ℚ
  baro_bias : ℚ
  flow_noise_std : ℚ
  flow_scale_factor : ℚ
  flow_works_without_gps : Bool
  gps_jammed : Bool
  gps_jamming_strength : ℚ
  gyro_integral_x : ℚ
  gyro_integral_y : ℚ
  gyro_integral_z : ℚ
  last_accel : ℚ × ℚ × ℚ

/-- `__init__` noise parameters. -/
def SensorSimulator.init : SensorSimulator :=
  { gps_noise_std := 1 / 2
    accel_noise_std := 1 / 20
    accel_bias_x := 1 / 100
    accel_bias_y := 1 / 100
    accel_bias_z := 1 / 100
    accel_scale_factor := 1
    gyro_noise_std := 1 / 100
    gyro_bias_x := 1 / 1000
    gyro_bias_y := 1 / 1000
    gyro_bias_z := 1 / 1000
    gyro_scale_factor := 1
    mag_noise_std := 1 / 10
    mag_declination := 0
    magnetic_interference := 0
    baro_noise_std := 1 / 2
    baro_bias := 0
    flow_noise_std := 1 / 10
    flow_scale_factor := 1
    flow_works_without_gps := true
    gps_jammed := false
    gps_jamming_strength := 0
    gyro_integral_x := 0
    gyro_integral_y := 0
    gyro_integral_z := 0
    last_accel := (0, 0, 0) }

/-- `set_gps_jamming(jammed, strength)`: strength clamped into [0, 1]. -/
def SensorSimulator.set_gps_jamming (s : SensorSimulator) (jammed : Bool)
    (strength : ℚ) : SensorSimulator :=
  { s with gps_jammed := jammed,
           gps_jamming_strength := max 0 (min 1 strength) }

/-- GPS reading: position triple (all three `None` together on signal
loss) plus the validity flag. -/
structure GpsReading where
  pos : Option (ℚ × ℚ × ℚ)
  valid : Bool

/-- `measure_gps(true_x, true_y, true_z)`: while jammed, either no signal
(probability `gps_jamming_strength`, realized by the `n.gps_u` draw) or a
grossly perturbed reading, both invalid; otherwise truth plus noise, valid. -/
def SensorSimulator.measure_gps (s : SensorSimulator)
    (true_x true_y true_z : ℚ) (n : SensorNoise) : GpsReading :=
  if s.gps_jammed then
    if n.gps_u < s.gps_jamming_strength then
      ⟨none, false⟩
    else
      ⟨some (true_x + n.gps_jam_x, true_y + n.gps_jam_y, true_z + n.gps_jam_z),
       false⟩
  else
    ⟨some (true_x + n.gps_x, true_y + n.gps_y, true_z + n.gps_z), true⟩

/-- `measure_accelerometer(...)`: scale, bias, gravity subtraction on the
vertical axis, noise; stores `last_accel`.  (`gravity = 9.81`.) -/
def SensorSimulator.measure_accelerometer (s : SensorSimulator)
    (true_accel_x true_accel_y true_accel_z : ℚ) (n : SensorNoise) :
    (ℚ × ℚ × ℚ) × SensorSimulator :=
  let accel_x := true_accel_x * s.accel_scale_factor + s.accel_bias_x + n.accel_x
  let accel_y := true_accel_y * s.accel_scale_factor + s.accel_bias_y + n.accel_y
  let accel_z :=
    (true_accel_z - 981 / 100) * s.accel_scale_factor + s.accel_bias_z + n.accel_z
  ((accel_x, accel_y, accel_z), { s with last_accel := (accel_x, accel_y, accel_z) })

/-- `measure_gyroscope(...)`: scale, bias, noise; accumulates the output
into the drift integrals with the hardcoded `dt = 0.1`. -/
def SensorSimulator.measure_gyroscope (s : SensorSimulator)
    (true_angular_vel_x true_angular_vel_y true_angular_vel_z : ℚ)
    (n : SensorNoise) : (ℚ × ℚ × ℚ) × SensorSimulator :=
  let gyro_x := true_angular_vel_x * s.gyro_scale_factor + s.gyro_bias_x + n.gyro_x
  let gyro_y := true_angular_vel_y * s.gyro_scale_factor + s.gyro_bias_y + n.gyro_y
  let gyro_z := true_angular_vel_z * s.gyro_scale_factor + s.gyro_bias_z + n.gyro_z
  ((gyro_x, gyro_y, gyro_z),
   { s with gyro_integral_x := s.gyro_integral_x + gyro_x * (1 / 10),
            gyro_integral_y := s.gyro_integral_y + gyro_y * (1 / 10),
            gyro_integral_z := s.gyro_integral_z + gyro_z * (1 / 10) })

/-- `measure_magnetometer(true_heading)`: declination, interference, noise.
The final wrap into (−π, π] involves the transcendental π; no consumer in
the core loop reads the magnetometer value, so the wrap is omitted here. -/
def SensorSimulator.measure_magnetometer (s : SensorSimulator)
    (true_heading : ℚ) (n : SensorNoise) : ℚ :=
  true_heading + s.mag_declination + s.magnetic_interference + n.mag

/-- `measure_barometer(true_altitude)`: bias, noise, floored at 0. -/
def SensorSimulator.measure_barometer (s : SensorSimulator)
    (true_altitude : ℚ) (n : SensorNoise) : ℚ :=
  max 0 (true_altitude + s.baro_bias + n.baro)

/-- `measure_optical_flow(...)`: truth plus altitude-scaled noise, always
valid.  The altitude factor scales only the distribution of the realized
draw, so it does not appear on the data path (see the file header). -/
def SensorSimulator.measure_optical_flow (s : SensorSimulator)
    (true_velocity_x true_velocity_y altitude : ℚ) (n : SensorNoise) :
    (ℚ × ℚ × Bool) :=
  (true_velocity_x + n.flow_x, true_velocity_y + n.flow_y, true)

/-- Bundle returned by `measure_all`. -/
structure Measurements where
  gps : GpsReading
  accel : ℚ × ℚ × ℚ
  gyro : ℚ × ℚ × ℚ
  mag_heading : ℚ
  baro_altitude : ℚ
  flow_vx : ℚ
  flow_vy : ℚ
  flow_valid : Bool

/-- `measure_all(...)`: all six sensors in source order (the accelerometer
is fed `(0.0, 0.0, true_vz)` and the gyroscope `(0, 0, 0)`, as in the
source), returning the bundle and the updated sensor state. -/
def SensorSimulator.measure_all (s : SensorSimulator)
    (true_x true_y true_z true_vx true_vy true_vz true_heading : ℚ)
    (n : SensorNoise) : Measurements × SensorSimulator :=
  let gps := s.measure_gps true_x true_y true_z n
  let (accel, s1) := s.measure_accelerometer 0 0 true_vz n
  let (gyro, s2) := s1.measure_gyroscope 0 0 0 n
  let mag_heading := s2.measure_magnetometer true_heading n
  let baro_z := s2.measure_barometer true_z n
  let (flow_x, flow_y, flow_valid) :=
    s2.measure_optical_flow true_vx true_vy true_z n
  (⟨gps, accel, gyro, mag_heading, baro_z, flow_x, flow_y, flow_valid⟩, s2)

/-!
PhysicsEngine from src/backend/src/PhysicsEngine.py.  Its state fields are
embedded; its per-tick evolution `step(dt)` computes `sqrt` magnitudes and
`atan2` headings, real-valued functions with no exact rational image.  The
orchestrator below therefore receives the post-`step` physics state as a
per-tick input, and every orchestrator-level theorem quantifies over all
such input streams (none of the verified claims constrains the physics
values themselves).
-/

/-- PhysicsEngine state: the fields assigned in `__init__`. -/
structure PhysicsEngine where
  position_x : ℚ
  position_y : ℚ
  altitude : ℚ
  velocity_x : ℚ
  velocity_y : ℚ
  velocity_z : ℚ
  acceleration_x : ℚ
  acceleration_y : ℚ
  acceleration_z : ℚ
  heading : ℚ
  pitch : ℚ
  roll : ℚ
  mass : ℚ
  max_acceleration : ℚ
  max_velocity : ℚ
  max_angular_velocity : ℚ
  target_waypoint : Option (ℚ × ℚ × ℚ)
  autopilot_active : Bool
  gravity : ℚ
  air_resistance : ℚ

/-- `__init__`: origin state and the fixed UAV parameters. -/
def PhysicsEngine.init : PhysicsEngine :=
  { position_x := 0, position_y := 0, altitude := 0
    velocity_x := 0, velocity_y := 0, velocity_z := 0
    acceleration_x := 0, acceleration_y := 0, acceleration_z := 0
    heading := 0, pitch := 0, roll := 0
    mass := 2, max_acceleration := 15, max_velocity := 20
    max_angular_velocity := 3
    target_waypoint := none, autopilot_active := true
    gravity := 981 / 100, air_resistance := 1 / 100 }

/-- `set_state(x, y, z, vx, vy, vz, heading)`. -/
def PhysicsEngine.set_state (p : PhysicsEngine)
    (x y z vx vy vz heading : ℚ) : PhysicsEngine :=
  { p with position_x := x, position_y := y, altitude := z,
           velocity_x := vx, velocity_y := vy, velocity_z := vz,
           heading := heading }

/-- `set_waypoint(waypoint)`. -/
def PhysicsEngine.set_waypoint (p : PhysicsEngine)
    (waypoint : Option (ℚ × ℚ × ℚ)) : PhysicsEngine :=
  { p with target_waypoint := waypoint }

/-!
Simulator from src/backend/src/Simulator.py: the fixed-timestep loop.

Two real-valued quantities cross this code: the physics evolution (supplied
per tick, see above) and the position error `sqrt(ex²+ey²)`.  The error is
only ever compared/maximized (`update_error`) and reported; since `t ↦ t²`
is a monotone bijection on the non-negatives, the embedding carries the
squared error everywhere the source carries the error, which preserves
every comparison and maximum.  Reporting-only roundings `round(·, 2)` are
omitted: they never feed back into control flow or state.
-/

/-- One trajectory-log entry (`error` carried squared, see above). -/
structure TrajectoryPoint where
  time : ℚ
  true_x : ℚ
  true_y : ℚ
  est_x : ℚ
  est_y : ℚ
  error_sq : ℚ
  confidence : ℚ
  gps_status : String
  nav_mode : String

/-- The `current_state` snapshot (`error` carried squared; `confidence` and
`mission_progress` on the 0–100 scale, as in the source). -/
structure Snapshot where
  true_position : ℚ × ℚ
  estimated_position : ℚ × ℚ
  velocity : ℚ × ℚ
  heading : ℚ
  altitude : ℚ
  gps_available : Bool
  navigation_mode : String
  error_sq : ℚ
  confidence : ℚ
  current_waypoint : ℚ × ℚ
  mission_progress : ℚ

/-- Simulator state: the four components plus time, timestep, trajectory
log and the current snapshot (`{}` before the first step → `none`). -/
structure Simulator where
  physics : PhysicsEngine
  sensors : SensorSimulator
  navigation : NavigationEngine
  mission : MissionSimulator
  time : ℚ
  dt : ℚ
  trajectory_data : List TrajectoryPoint
  current_state : Option Snapshot

/-- `__init__`: fresh components, pose set to the origin at 5 m altitude,
autopilot target on the first waypoint. -/
def Simulator.init : Simulator :=
  let mission := MissionSimulator.init
  { physics := (PhysicsEngine.init.set_state 0 0 5 0 0 0 0).set_waypoint
      (some mission.get_current_waypoint)
    sensors := SensorSimulator.init
    navigation := NavigationEngine.init.set_state 0 0 0 0
    mission := mission
    time := 0
    dt := 1 / 10
    trajectory_data := []
    current_state := none }

/-- Per-tick inputs to `step`: the physics state after `physics.step(dt)`
and the realized sensor noise draws. -/
structure TickInput where
  physics_next : PhysicsEngine
  noise : SensorNoise

/-- `step()`: snapshot ground truth, predict, measure, branch on GPS
validity (an exception from `update_gps` propagates out of `step`), optical
flow, physics, mission update, error statistics, snapshot and trajectory
append, advance time.  Note the source never calls
`sensors.set_gps_jamming` anywhere in this class. -/
def Simulator.step (sim : Simulator) (inp : TickInput) :
    Except String Simulator :=
  let true_x := sim.physics.position_x
  let true_y := sim.physics.position_y
  let true_z := sim.physics.altitude
  let true_vx := sim.physics.velocity_x
  let true_vy := sim.physics.velocity_y
  let true_vz := sim.physics.velocity_z
  let true_heading := sim.physics.heading
  let nav0 := sim.navigation.predict
  let (measurements, sensors) :=
    sim.sensors.measure_all true_x true_y true_z true_vx true_vy true_vz
      true_heading inp.noise
  let gpsBranch : Except String (NavigationEngine × MissionSimulator) :=
    if measurements.gps.valid then
      match measurements.gps.pos with
      | some (gx, gy, gz) =>
        match nav0.update_gps gx gy gz with
        | (_, some e) => Except.error e
        | (nav1, none) =>
          Except.ok (nav1, { sim.mission with navigation_mode := "GPS" })
      | none =>
        -- unreachable: `measure_gps` marks valid only with a position
        Except.error "TypeError"
    else
      Except.ok (nav0, { sim.mission with navigation_mode := "SENSOR" })
  match gpsBranch with
  | Except.error e => Except.error e
  | Except.ok (nav1, mission1) =>
    let nav2 :=
      if measurements.flow_valid then
        nav1.update_optical_flow measurements.flow_vx measurements.flow_vy
      else nav1
    let physics := inp.physics_next
    let mission2 := mission1.update (true_x, true_y, true_z)
    let est := nav2.get_state
    let error_sq := (est.1 - true_x) ^ 2 + (est.2.1 - true_y) ^ 2
    let mission3 := mission2.update_error error_sq
    let confidence := nav2.get_confidence
    let snapshot : Snapshot :=
      { true_position := (true_x, true_y)
        estimated_position := (est.1, est.2.1)
        velocity := (true_vx, true_vy)
        heading := true_heading
        altitude := true_z
        gps_available := measurements.gps.valid
        navigation_mode := mission3.navigation_mode
        error_sq := error_sq
        confidence := confidence * 100
        current_waypoint := (mission3.get_current_waypoint.1,
                             mission3.get_current_waypoint.2.1)
        mission_progress := mission3.get_mission_progress * 100 }
    let entry : TrajectoryPoint :=
      { time := sim.time
        true_x := true_x, true_y := true_y
        est_x := est.1, est_y := est.2.1
        error_sq := error_sq
        confidence := confidence * 100
        gps_status := if measurements.gps.valid then "ACTIVE" else "JAMMED"
        nav_mode := mission3.navigation_mode }
    Except.ok { sim with
      physics := physics
      sensors := sensors
      navigation := nav2
      mission := mission3
      time := sim.time + sim.dt
      trajectory_data := sim.trajectory_data ++ [entry]
      current_state := some snapshot }

/-- Python `int(·)`: truncation toward zero. -/
def pyInt (q : ℚ) : ℤ := if 0 ≤ q then ⌊q⌋ else ⌈q⌉

/-- Python list indexing `l[i]` with negative-index wrap-around; `none`
models the `IndexError`. -/
def pyGet {α : Type} (l : List α) (i : ℤ) : Option α :=
  if 0 ≤ i then l.get? i.toNat
  else if (-i).toNat ≤ l.length then l.get? (l.length - (-i).toNat)
  else none

/-- The `metrics` dictionary of `get_results`/`get_metrics`. -/
structure Metrics where
  waypoints_reached : ℕ
  total_waypoints : ℕ
  mission_success_rate : ℚ
  max_position_error : ℚ
  final_confidence : ℚ

/-- The `jamming_analysis` dictionary (errors carried squared). -/
structure JammingAnalysis where
  jam_start_time : ℚ
  jam_end_time : ℚ
  error_before_jam : ℚ
  peak_error_during_jam : ℚ
  error_after_recovery : ℚ
  recovery_time : ℚ

/-- The aggregate result bundle of `run`. -/
structure RunResults where
  status : String
  trajectory_data : List TrajectoryPoint
  metrics : Metrics
  jamming_analysis : JammingAnalysis
  current_state : Option Snapshot

/-- `get_results()`: metrics, then the jamming analysis whose
`error_before_jam` entry indexes
`trajectory_data[int(jamming_start_time / dt) - 1]` guarded only by the
trajectory being nonempty, then the bundle.  A failed list access raises
`IndexError`, modelled as the error value. -/
def Simulator.get_results (sim : Simulator) : Except String RunResults :=
  let metrics : Metrics :=
    { waypoints_reached := sim.mission.waypoints_reached
      total_waypoints := sim.mission.waypoints.length
      mission_success_rate := sim.mission.calculate_success_rate * 100
      max_position_error := sim.mission.max_error
      final_confidence := sim.navigation.get_confidence * 100 }
  let error_before_jam : Except String ℚ :=
    if 0 < sim.trajectory_data.length then
      match pyGet sim.trajectory_data
          (pyInt (sim.mission.jamming_start_time / sim.dt) - 1) with
      | some p => Except.ok p.error_sq
      | none => Except.error "IndexError: list index out of range"
    else Except.ok 0
  match error_before_jam with
  | Except.error e => Except.error e
  | Except.ok ebj =>
    let error_after_recovery : Except String ℚ :=
      if 0 < sim.trajectory_data.length then
        match pyGet sim.trajectory_data (-1) with
        | some p => Except.ok p.error_sq
        | none => Except.error "IndexError: list index out of range"
      else Except.ok 0
    match error_after_recovery with
    | Except.error e => Except.error e
    | Except.ok ear =>
      Except.ok
        { status := if sim.mission.mission_complete then "success" else "running"
          trajectory_data := sim.trajectory_data
          metrics := metrics
          jamming_analysis :=
            { jam_start_time := sim.mission.jamming_start_time
              jam_end_time := sim.mission.jamming_end_time
              error_before_jam := ebj
              peak_error_during_jam := sim.mission.max_error
              error_after_recovery := ear
              recovery_time := sim.mission.get_recovery_time }
          current_state := sim.current_state }

/-- The `for i in range(num_steps)` loop of `run`, with the
`if not mission_active: break` check after each step; `i` indexes the
per-tick input stream, the last argument is the remaining fuel. -/
def Simulator.runFrom (env : ℕ → TickInput) :
    Simulator → ℕ → ℕ → Except String Simulator
  | sim, _, 0 => Except.ok sim
  | sim, i, n + 1 =>
    match sim.step (env i) with
    | Except.error e => Except.error e
    | Except.ok s =>
      if s.mission.mission_active then Simulator.runFrom env s (i + 1) n
      else Except.ok s

/-- `run(duration)`: `int(duration / dt)` steps (or until the mission goes
inactive), then `get_results()`. -/
def Simulator.run (sim : Simulator) (env : ℕ → TickInput) (duration : ℚ) :
    Except String RunResults :=
  match Simulator.runFrom env sim 0 (pyInt (duration / sim.dt)).toNat with
  | Except.error e => Except.error e
  | Except.ok s => s.get_results

/-!
Predicates about the 4×4 covariance block used by the invariants and the
algebraic claims.  The covariance lives in the top-left 4×4 block of `P`
(the state dimension); symmetry and positive semidefiniteness are
properties of that block.
-/

/-- Quadratic form `vᵀ·A·v` of the 4×4 block of `A` at `(v0, v1, v2, v3)`. -/
def qf (A : Matrix) (v0 v1 v2 v3 : ℚ) : ℚ :=
  v0 * (A.get 0 0 * v0 + A.get 0 1 * v1 + A.get 0 2 * v2 + A.get 0 3 * v3) +
  v1 * (A.get 1 0 * v0 + A.get 1 1 * v1 + A.get 1 2 * v2 + A.get 1 3 * v3) +
  v2 * (A.get 2 0 * v0 + A.get 2 1 * v1 + A.get 2 2 * v2 + A.get 2 3 * v3) +
  v3 * (A.get 3 0 * v0 + A.get 3 1 * v1 + A.get 3 2 * v2 + A.get 3 3 * v3)

/-- Symmetry of the 4×4 block: the six off-diagonal pairs agree. -/
def Symm4 (A : Matrix) : Prop :=
  A.get 0 1 = A.get 1 0 ∧ A.get 0 2 = A.get 2 0 ∧ A.get 0 3 = A.get 3 0 ∧
  A.get 1 2 = A.get 2 1 ∧ A.get 1 3 = A.get 3 1 ∧ A.get 2 3 = A.get 3 2

/-- Positive semidefiniteness of the 4×4 block: every quadratic form value
is non-negative. -/
def PSD4 (A : Matrix) : Prop :=
  ∀ v0 v1 v2 v3 : ℚ, 0 ≤ qf A v0 v1 v2 v3

/-- States of the estimator reachable from `__init__` by any sequence of
`predict()`, `update_gps(...)` and `update_optical_flow(...)` calls with
arbitrary measurement arguments (the first component of `update_gps` is
the filter state after the call whether or not it raised). -/
inductive NavReachable : NavigationEngine → Prop where
  | init : NavReachable NavigationEngine.init
  | predict {nav : NavigationEngine} : NavReachable nav →
      NavReachable nav.predict
  | gps {nav : NavigationEngine} (gps_x gps_y gps_z : ℚ) :
      NavReachable nav → NavReachable (nav.update_gps gps_x gps_y gps_z).1
  | flow {nav : NavigationEngine} (flow_x flow_y : ℚ) :
      NavReachable nav → NavReachable (nav.update_optical_flow flow_x flow_y)

/-- All-zero noise draws, used to build concrete input streams. -/
def zeroNoise : SensorNoise :=
  ⟨0, 0, 0, 0, 0, 0, 0, 0, 0, 0, 0, 0, 0, 0, 0, 0, 0⟩

/-- A concrete constant per-tick input stream for witnesses. -/
def constInput : TickInput :=
  ⟨Simulator.init.physics, zeroNoise⟩

/-- The filter state after `n` `predict()` calls from `__init__` with no
intervening update. -/
def predictN (n : ℕ) : NavigationEngine :=
  NavigationEngine.predict^[n] NavigationEngine.init

/-- Well-formedness invariant of the estimator: the covariance block is a
symmetric positive-semidefinite 4×4 grid and the constant model matrices
`F`, `Q` are the ones installed by `__init__`. -/
def GoodNav (nav : NavigationEngine) : Prop :=
  nav.P.rows = 4 ∧ nav.P.cols = 4 ∧ Symm4 nav.P ∧ PSD4 nav.P ∧
  nav.F = NavigationEngine.init.F ∧ nav.Q = NavigationEngine.init.Q

/-- Determinant of the GPS innovation covariance `H·P·Hᵀ + R`, written out
over the entries of `P`. -/
def gpsDet (P : Matrix) : ℚ :=
  (P.get 0 0 + 1 / 4) * (P.get 1 1 + 1 / 4) - P.get 0 1 * P.get 1 0

/-- First component of `H·P·v` for the GPS observation rows. -/
def gpsW0 (P : Matrix) (v0 v1 v2 v3 : ℚ) : ℚ :=
  P.get 0 0 * v0 + P.get 0 1 * v1 + P.get 0 2 * v2 + P.get 0 3 * v3

/-- Second component of `H·P·v` for the GPS observation rows. -/
def gpsW1 (P : Matrix) (v0 v1 v2 v3 : ℚ) : ℚ :=
  P.get 1 0 * v0 + P.get 1 1 * v1 + P.get 1 2 * v2 + P.get 1 3 * v3

/-- First component of `adj(S)·H·P·v` for the GPS update. -/
def gpsU0 (P : Matrix) (v0 v1 v2 v3 : ℚ) : ℚ :=
  (P.get 1 1 + 1 / 4) * gpsW0 P v0 v1 v2 v3 - P.get 0 1 * gpsW1 P v0 v1 v2 v3

/-- Second component of `adj(S)·H·P·v` for the GPS update. -/
def gpsU1 (P : Matrix) (v0 v1 v2 v3 : ℚ) : ℚ :=
  -(P.get 1 0) * gpsW0 P v0 v1 v2 v3 + (P.get 0 0 + 1 / 4) * gpsW1 P v0 v1 v2 v3

/-- Determinant of the optical-flow innovation covariance `H·P·Hᵀ + R`. -/
def flowDet (P : Matrix) : ℚ :=
  (P.get 2 2 + 1 / 25) * (P.get 3 3 + 1 / 25) - P.get 2 3 * P.get 3 2

/-- First component of `H·P·v` for the optical-flow observation rows. -/
def flowW0 (P : Matrix) (v0 v1 v2 v3 : ℚ) : ℚ :=
  P.get 2 0 * v0 + P.get 2 1 * v1 + P.get 2 2 * v2 + P.get 2 3 * v3

/-- Second component of `H·P·v` for the optical-flow observation rows. -/
def flowW1 (P : Matrix) (v0 v1 v2 v3 : ℚ) : ℚ :=
  P.get 3 0 * v0 + P.get 3 1 * v1 + P.get 3 2 * v2 + P.get 3 3 * v3

/-- First component of `adj(S)·H·P·v` for the optical-flow update. -/
def flowU0 (P : Matrix) (v0 v1 v2 v3 : ℚ) : ℚ :=
  (P.get 3 3 + 1 / 25) * flowW0 P v0 v1 v2 v3 - P.get 2 3 * flowW1 P v0 v1 v2 v3

/-- Second component of `adj(S)·H·P·v` for the optical-flow update. -/
def flowU1 (P : Matrix) (v0 v1 v2 v3 : ℚ) : ℚ :=
  -(P.get 3 2) * flowW0 P v0 v1 v2 v3 +
    (P.get 2 2 + 1 / 25) * flowW1 P v0 v1 v2 v3

/-- Quadratic form `wᵀ·adj(S)·w` of the GPS innovation, with `w = H·P·v`:
the amount by which one GPS update, scaled by `det(S)`, shrinks the
covariance quadratic form. -/
def gpsTheta (P : Matrix) (v0 v1 v2 v3 : ℚ) : ℚ :=
  (P.get 1 1 + 1 / 4) * gpsW0 P v0 v1 v2 v3 ^ 2 -
    2 * P.get 0 1 * gpsW0 P v0 v1 v2 v3 * gpsW1 P v0 v1 v2 v3 +
    (P.get 0 0 + 1 / 4) * gpsW1 P v0 v1 v2 v3 ^ 2

/-- Quadratic form `wᵀ·adj(S)·w` of the optical-flow innovation. -/
def flowTheta (P : Matrix) (v0 v1 v2 v3 : ℚ) : ℚ :=
  (P.get 3 3 + 1 / 25) * flowW0 P v0 v1 v2 v3 ^ 2 -
    2 * P.get 2 3 * flowW0 P v0 v1 v2 v3 * flowW1 P v0 v1 v2 v3 +
    (P.get 2 2 + 1 / 25) * flowW1 P v0 v1 v2 v3 ^ 2

/-- Row `i` of the GPS Kalman gain, first column: `K_{i0}`. -/
def gpsK0 (P : Matrix) (i : ℕ) : ℚ :=
  (P.get i 0 * (P.get 1 1 + 1 / 4) - P.get i 1 * P.get 1 0) / gpsDet P

/-- Row `i` of the GPS Kalman gain, second column: `K_{i1}`. -/
def gpsK1 (P : Matrix) (i : ℕ) : ℚ :=
  (-(P.get i 0) * P.get 0 1 + P.get i 1 * (P.get 0 0 + 1 / 4)) / gpsDet P

/-- Row `i` of the optical-flow Kalman gain, first column. -/
def flowK0 (P : Matrix) (i : ℕ) : ℚ :=
  (P.get i 2 * (P.get 3 3 + 1 / 25) - P.get i 3 * P.get 3 2) / flowDet P

/-- Row `i` of the optical-flow Kalman gain, second column. -/
def flowK1 (P : Matrix) (i : ℕ) : ℚ :=
  (-(P.get i 2) * P.get 2 3 + P.get i 3 * (P.get 2 2 + 1 / 25)) / flowDet P

/-- Orchestrator invariant along the simulation loop: the sensor model is
never switched into jamming (no caller of `set_gps_jamming` exists), the
estimator invariant holds, the timestep and mission constants are the
`__init__` values, the mission clock counts one `dt` per logged tick, and
the mission is active exactly while fewer than 900 ticks are logged. -/
def SimInv (s : Simulator) : Prop :=
  s.sensors.gps_jammed = false ∧
  GoodNav s.navigation ∧
  s.dt = 1 / 10 ∧
  s.mission.dt = 1 / 10 ∧
  s.mission.mission_duration = 90 ∧
  s.mission.jamming_start_time = 3 ∧
  s.mission.current_time = (s.trajectory_data.length : ℚ) / 10 ∧
  s.mission.mission_active = decide (s.trajectory_data.length < 900)

/-- A covariance grid making both 2×2 innovation covariances exactly
singular: `(0+¼)(0+¼) = ¼·¼` on the GPS block and
`(0+1/25)(0+1/25) = (1/25)²` on the velocity block. -/
def singP : Matrix :=
  ⟨4, 4, fun i j =>
    if (i = 0 ∧ j = 1) ∨ (i = 1 ∧ j = 0) then 1 / 4
    else if (i = 2 ∧ j = 3) ∨ (i = 3 ∧ j = 2) then 1 / 25
    else 0⟩

/-- A filter state whose covariance is `singP`. -/
def navSing : NavigationEngine :=
  { NavigationEngine.init with P := singP }

/-!
Theorems.  Basic evaluation lemmas for the matrix kernel first.
-/

@[simp] lemma Matrix.rows_mk (r c : ℕ) (f : ℕ → ℕ → ℚ) :
    (Matrix.mk r c f).rows = r := rfl

@[simp] lemma Matrix.cols_mk (r c : ℕ) (f : ℕ → ℕ → ℚ) :
    (Matrix.mk r c f).cols = c := rfl

@[simp] lemma Matrix.get_mk (r c : ℕ) (f : ℕ → ℕ → ℚ) (i j : ℕ) :
    (Matrix.mk r c f).get i j = f i j := rfl

@[simp] lemma Matrix.rows_set (A : Matrix) (r c : ℕ) (v : ℚ) :
    (A.set r c v).rows = A.rows := rfl

@[simp] lemma Matrix.cols_set (A : Matrix) (r c : ℕ) (v : ℚ) :
    (A.set r c v).cols = A.cols := rfl

lemma Matrix.get_set (A : Matrix) (r c : ℕ) (v : ℚ) (i j : ℕ) :
    (A.set r c v).get i j = if i = r ∧ j = c then v else A.get i j := rfl

@[simp] lemma Matrix.rows_new (r c : ℕ) (v : ℚ) :
    (Matrix.new r c v).rows = r := rfl

@[simp] lemma Matrix.cols_new (r c : ℕ) (v : ℚ) :
    (Matrix.new r c v).cols = c := rfl

lemma Matrix.get_new (r c : ℕ) (v : ℚ) (i j : ℕ) :
    (Matrix.new r c v).get i j = if i < r ∧ j < c then v else 0 := rfl

@[simp] lemma Matrix.rows_multiplyU (A B : Matrix) :
    (A.multiplyU B).rows = A.rows := rfl

@[simp] lemma Matrix.cols_multiplyU (A B : Matrix) :
    (A.multiplyU B).cols = B.cols := rfl

lemma Matrix.get_multiplyU (A B : Matrix) (i j : ℕ) :
    (A.multiplyU B).get i j =
      if i < A.rows ∧ j < B.cols then
        ∑ k in Finset.range A.cols, A.get i k * B.get k j
      else 0 := rfl

@[simp] lemma Matrix.rows_addU (A B : Matrix) : (A.addU B).rows = A.rows := rfl

@[simp] lemma Matrix.cols_addU (A B : Matrix) : (A.addU B).cols = A.cols := rfl

lemma Matrix.get_addU (A B : Matrix) (i j : ℕ) :
    (A.addU B).get i j =
      if i < A.rows ∧ j < A.cols then A.get i j + B.get i j else 0 := rfl

lemma Matrix.get_subtractU (A B : Matrix) (i j : ℕ) :
    (A.subtractU B).get i j =
      if i < A.rows ∧ j < A.cols then A.get i j - B.get i j else 0 := rfl

@[simp] lemma Matrix.rows_transpose (A : Matrix) :
    A.transpose.rows = A.cols := rfl

@[simp] lemma Matrix.cols_transpose (A : Matrix) :
    A.transpose.cols = A.rows := rfl

lemma Matrix.get_transpose (A : Matrix) (i j : ℕ) :
    A.transpose.get i j = if j < A.rows ∧ i < A.cols then A.get j i else 0 := rfl

lemma Matrix.get_identity (n i j : ℕ) :
    (Matrix.identity n).get i j = if i = j ∧ i < n then 1 else 0 := rfl

/-- C10: multiplying any matrix `A` on the right by `identity(A.cols)`
passes the dimension check and returns a matrix with the same dimensions
and the same entries as `A`. -/
theorem C10_multiply_identity (A : Matrix) :
    ∃ B, Matrix.multiply A (Matrix.identity A.cols) = Except.ok B ∧
      B.rows = A.rows ∧ B.cols = A.cols ∧
      ∀ i j, i < A.rows → j < A.cols → B.get i j = A.get i j := by
  refine ⟨A.multiplyU (Matrix.identity A.cols), ?_, rfl, rfl, ?_⟩
  · simp [Matrix.multiply, Matrix.identity]
  · intro i j hi hj
    rw [Matrix.get_multiplyU]
    rw [if_pos ⟨hi, by simpa using hj⟩]
    have h1 : ∀ k ∈ Finset.range A.cols,
        A.get i k * (Matrix.identity A.cols).get k j =
          if k = j then A.get i k else 0 := by
      intro k hk
      have hk' : k < A.cols := Finset.mem_range.mp hk
      rw [Matrix.get_identity]
      by_cases h : k = j
      · subst h; rw [if_pos ⟨rfl, hk'⟩, if_pos rfl, mul_one]
      · rw [if_neg (by tauto), if_neg h, mul_zero]
    rw [Finset.sum_congr rfl h1, Finset.sum_ite_eq' (Finset.range A.cols) j]
    rw [if_pos (Finset.mem_range.mpr hj)]

/-- Witness for C10 at a concrete matrix. -/
theorem C10_witness :
    ∃ B, Matrix.multiply (Matrix.identity 2)
        (Matrix.identity (Matrix.identity 2).cols) = Except.ok B ∧
      B.rows = (Matrix.identity 2).rows ∧ B.cols = (Matrix.identity 2).cols ∧
      ∀ i j, i < (Matrix.identity 2).rows → j < (Matrix.identity 2).cols →
        B.get i j = (Matrix.identity 2).get i j :=
  C10_multiply_identity (Matrix.identity 2)

/-- C7: for every mission state over a nonempty waypoint list (the Python
division requires `N > 0`), `calculate_success_rate` equals the 80-point
completion share plus the 20-point peak-error score, normalized by 100 and
capped at 1. -/
theorem C7_success_rate (m : MissionSimulator) (h : 0 < m.waypoints.length) :
    m.calculate_success_rate =
      min 1 (((m.waypoints_reached : ℚ) / (m.waypoints.length : ℚ) * 80 +
        max 0 (20 - 5 * m.max_error)) / 100) := by
  unfold MissionSimulator.calculate_success_rate
  have : 20 - m.max_error * 5 = 20 - 5 * m.max_error := by ring
  rw [this]

/-- Witness for C7 at the initial mission state. -/
theorem C7_witness :
    0 < MissionSimulator.init.waypoints.length ∧
      MissionSimulator.init.calculate_success_rate =
        min 1 (((MissionSimulator.init.waypoints_reached : ℚ) /
            (MissionSimulator.init.waypoints.length : ℚ) * 80 +
          max 0 (20 - 5 * MissionSimulator.init.max_error)) / 100) :=
  ⟨by decide, C7_success_rate MissionSimulator.init (by decide)⟩

/-- Fields of `MissionSimulator.update` that depend only on the elapsed
time: the time advances by `dt`, and the jammed flag and navigation mode
are recomputed from the window test `start <= t <= end` (both bounds
inclusive in the source). -/
lemma mission_update_time_fields (m : MissionSimulator) (pos : ℚ × ℚ × ℚ) :
    (m.update pos).current_time = m.current_time + m.dt ∧
    (m.update pos).gps_jammed =
      (if m.jamming_start_time ≤ m.current_time + m.dt ∧
          m.current_time + m.dt ≤ m.jamming_end_time then true else false) ∧
    (m.update pos).navigation_mode =
      (if m.jamming_start_time ≤ m.current_time + m.dt ∧
          m.current_time + m.dt ≤ m.jamming_end_time then "SENSOR"
       else "GPS") := by
  unfold MissionSimulator.update
  by_cases hj : m.jamming_start_time ≤ m.current_time + m.dt ∧
      m.current_time + m.dt ≤ m.jamming_end_time <;>
    simp only [hj, if_true, if_false, ite_true, ite_false, if_pos, if_neg,
      not_false_iff] <;>
    split_ifs <;>
    simp_all [MissionSimulator.set_waypoint_reached] <;>
    split_ifs <;>
    simp_all

/-- C2 (amended): after any `update()` call, `gps_jammed` is true and
`navigation_mode` is "SENSOR" exactly when the new elapsed time lies in
the closed window `[start, end]`, and `gps_jammed` is false with mode
"GPS" otherwise; in particular the flag is still set at elapsed time
exactly `end`. -/
theorem C2_jamming_closed_window (m : MissionSimulator) (pos : ℚ × ℚ × ℚ) :
    ((m.update pos).gps_jammed = true ↔
      (m.jamming_start_time ≤ m.current_time + m.dt ∧
        m.current_time + m.dt ≤ m.jamming_end_time)) ∧
    ((m.update pos).navigation_mode = "SENSOR" ↔
      (m.jamming_start_time ≤ m.current_time + m.dt ∧
        m.current_time + m.dt ≤ m.jamming_end_time)) ∧
    ((m.update pos).navigation_mode = "GPS" ↔
      ¬(m.jamming_start_time ≤ m.current_time + m.dt ∧
        m.current_time + m.dt ≤ m.jamming_end_time)) ∧
    (m.update pos).current_time = m.current_time + m.dt := by
  obtain ⟨ht, hj, hn⟩ := mission_update_time_fields m pos
  rw [ht, hj, hn]
  by_cases h : m.jamming_start_time ≤ m.current_time + m.dt ∧
      m.current_time + m.dt ≤ m.jamming_end_time <;> simp [h]

/-- C2 (counterexample to the claim as stated): updating from elapsed time
5.9 s lands exactly on the window end 6.0 s, where the claim demands
`gps_jammed = false` and GPS mode, but the code sets the flag and SENSOR
mode (the window test is inclusive at the right endpoint). -/
theorem C2_counterexample :
    (({ MissionSimulator.init with current_time := 59 / 10 }).update
        (0, 0, 0)).current_time =
      ({ MissionSimulator.init with current_time := 59 / 10 } :
        MissionSimulator).jamming_end_time ∧
    (({ MissionSimulator.init with current_time := 59 / 10 }).update
        (0, 0, 0)).gps_jammed = true ∧
    (({ MissionSimulator.init with current_time := 59 / 10 }).update
        (0, 0, 0)).navigation_mode = "SENSOR" := by
  refine ⟨?_, ?_, ?_⟩ <;>
    simp [MissionSimulator.update, MissionSimulator.init,
      MissionSimulator.get_current_waypoint,
      MissionSimulator.set_waypoint_reached,
      MissionSimulator.distance_3d_sq] <;>
    norm_num

/-- C6: one `update()` from the exact coordinates of the active waypoint
advances the waypoint index and the reached counter, unless the active
waypoint is the final one, in which case the mission is marked complete
and the index does not move. -/
theorem C6_waypoint_advancement (m : MissionSimulator)
    (h : m.current_waypoint_index < m.waypoints.length)
    (hthr : 0 < m.waypoint_reached_threshold) :
    (m.current_waypoint_index < m.waypoints.length - 1 →
      (m.update (m.waypoints.getD m.current_waypoint_index
          (0, 0, 0))).waypoints_reached = m.waypoints_reached + 1 ∧
      (m.update (m.waypoints.getD m.current_waypoint_index
          (0, 0, 0))).current_waypoint_index =
        m.current_waypoint_index + 1) ∧
    (m.current_waypoint_index = m.waypoints.length - 1 →
      (m.update (m.waypoints.getD m.current_waypoint_index
          (0, 0, 0))).mission_complete = true ∧
      (m.update (m.waypoints.getD m.current_waypoint_index
          (0, 0, 0))).current_waypoint_index = m.current_waypoint_index) := by
  have hsq : ∀ p : ℚ × ℚ × ℚ, MissionSimulator.distance_3d_sq p p = 0 := by
    intro p; simp [MissionSimulator.distance_3d_sq]
  have hsq2 : (0 : ℚ) < m.waypoint_reached_threshold ^ 2 := by positivity
  unfold MissionSimulator.update
  simp only [MissionSimulator.get_current_waypoint]
  split_ifs with h1 h2 h3 h4 h5 h6 h7 h8 h9 h10 h11 h12 <;>
    simp_all [MissionSimulator.set_waypoint_reached] <;>
    linarith

/-- Witness for C6 at the initial mission state (waypoint 0 of 5 is not
final, so the reached counter and the index advance). -/
theorem C6_witness :
    (MissionSimulator.init.update (MissionSimulator.init.waypoints.getD
        MissionSimulator.init.current_waypoint_index
        (0, 0, 0))).waypoints_reached =
      MissionSimulator.init.waypoints_reached + 1 ∧
    (MissionSimulator.init.update (MissionSimulator.init.waypoints.getD
        MissionSimulator.init.current_waypoint_index
        (0, 0, 0))).current_waypoint_index =
      MissionSimulator.init.current_waypoint_index + 1 :=
  (C6_waypoint_advancement MissionSimulator.init (by decide)
    (by norm_num [MissionSimulator.init])).1 (by decide)

/-!
Kalman-filter algebra.  Entry-level evaluation of the innovation
covariances, the branch structure of the two updates, and the
positive-semidefiniteness facts feeding claims C3, C4, C5 and C8.
-/

lemma gpsS_rows (P : Matrix) : (NavigationEngine.gpsS P).rows = 2 := rfl

lemma gpsS_cols (P : Matrix) : (NavigationEngine.gpsS P).cols = 2 := rfl

/-- Entries of the GPS innovation covariance over a 4-column `P`. -/
lemma gpsS_get (P : Matrix) (hc : P.cols = 4) :
    (NavigationEngine.gpsS P).get 0 0 = P.get 0 0 + 1 / 4 ∧
    (NavigationEngine.gpsS P).get 0 1 = P.get 0 1 ∧
    (NavigationEngine.gpsS P).get 1 0 = P.get 1 0 ∧
    (NavigationEngine.gpsS P).get 1 1 = P.get 1 1 + 1 / 4 := by
  refine ⟨?_, ?_, ?_, ?_⟩ <;>
    simp [NavigationEngine.gpsS, NavigationEngine.gpsH, NavigationEngine.gpsR,
      Matrix.get_addU, Matrix.get_multiplyU, Matrix.get_transpose,
      Matrix.get_set, Matrix.get_new, hc, Finset.sum_range_succ]

/-- The determinant computed by `invert_2x2` on the GPS innovation
covariance is `gpsDet`. -/
lemma det2_gpsS (P : Matrix) (hc : P.cols = 4) :
    (NavigationEngine.gpsS P).det2 = gpsDet P := by
  obtain ⟨h00, h01, h10, h11⟩ := gpsS_get P hc
  unfold Matrix.det2 gpsDet
  rw [h00, h01, h10, h11]

lemma flowS_rows (P : Matrix) : (NavigationEngine.flowS P).rows = 2 := rfl

lemma flowS_cols (P : Matrix) : (NavigationEngine.flowS P).cols = 2 := rfl

/-- Entries of the optical-flow innovation covariance over a 4-column `P`. -/
lemma flowS_get (P : Matrix) (hc : P.cols = 4) :
    (NavigationEngine.flowS P).get 0 0 = P.get 2 2 + 1 / 25 ∧
    (NavigationEngine.flowS P).get 0 1 = P.get 2 3 ∧
    (NavigationEngine.flowS P).get 1 0 = P.get 3 2 ∧
    (NavigationEngine.flowS P).get 1 1 = P.get 3 3 + 1 / 25 := by
  refine ⟨?_, ?_, ?_, ?_⟩ <;>
    simp [NavigationEngine.flowS, NavigationEngine.flowH, NavigationEngine.flowR,
      Matrix.get_addU, Matrix.get_multiplyU, Matrix.get_transpose,
      Matrix.get_set, Matrix.get_new, hc, Finset.sum_range_succ]

/-- The determinant computed by `invert_2x2` on the optical-flow innovation
covariance is `flowDet`. -/
lemma det2_flowS (P : Matrix) (hc : P.cols = 4) :
    (NavigationEngine.flowS P).det2 = flowDet P := by
  obtain ⟨h00, h01, h10, h11⟩ := flowS_get P hc
  unfold Matrix.det2 flowDet
  rw [h00, h01, h10, h11]

/-- Singular branch of `update_gps`: the `ValueError` propagates and the
filter object is untouched. -/
lemma update_gps_singular (nav : NavigationEngine) (x y z : ℚ)
    (h : |(NavigationEngine.gpsS nav.P).det2| < eps) :
    nav.update_gps x y z =
      (nav, some "Matrix is singular (determinant is zero)") := by
  unfold NavigationEngine.update_gps Matrix.invert Matrix.invert_2x2
  rw [if_pos ⟨gpsS_rows nav.P, gpsS_cols nav.P⟩,
    if_neg (not_not_intro ⟨gpsS_rows nav.P, gpsS_cols nav.P⟩), if_pos h]

/-- Non-singular branch of `update_gps`. -/
lemma update_gps_ok (nav : NavigationEngine) (x y z : ℚ)
    (h : ¬ |(NavigationEngine.gpsS nav.P).det2| < eps) :
    nav.update_gps x y z =
      (nav.gpsPost x y (NavigationEngine.gpsS nav.P).inv2, none) := by
  unfold NavigationEngine.update_gps Matrix.invert Matrix.invert_2x2
  rw [if_pos ⟨gpsS_rows nav.P, gpsS_cols nav.P⟩,
    if_neg (not_not_intro ⟨gpsS_rows nav.P, gpsS_cols nav.P⟩), if_neg h]

/-- Singular branch of `update_optical_flow`: a silent no-op. -/
lemma update_flow_singular (nav : NavigationEngine) (x y : ℚ)
    (h : |(NavigationEngine.flowS nav.P).det2| < eps) :
    nav.update_optical_flow x y = nav := by
  unfold NavigationEngine.update_optical_flow Matrix.invert Matrix.invert_2x2
  rw [if_pos ⟨flowS_rows nav.P, flowS_cols nav.P⟩,
    if_neg (not_not_intro ⟨flowS_rows nav.P, flowS_cols nav.P⟩), if_pos h]

/-- Non-singular branch of `update_optical_flow`. -/
lemma update_flow_ok (nav : NavigationEngine) (x y : ℚ)
    (h : ¬ |(NavigationEngine.flowS nav.P).det2| < eps) :
    nav.update_optical_flow x y =
      nav.flowPost x y (NavigationEngine.flowS nav.P).inv2 := by
  unfold NavigationEngine.update_optical_flow Matrix.invert Matrix.invert_2x2
  rw [if_pos ⟨flowS_rows nav.P, flowS_cols nav.P⟩,
    if_neg (not_not_intro ⟨flowS_rows nav.P, flowS_cols nav.P⟩), if_neg h]

/-- Diagonal entries of a positive-semidefinite block are non-negative. -/
lemma psd_diag (A : Matrix) (hpsd : PSD4 A) :
    0 ≤ A.get 0 0 ∧ 0 ≤ A.get 1 1 ∧ 0 ≤ A.get 2 2 ∧ 0 ≤ A.get 3 3 := by
  refine ⟨?_, ?_, ?_, ?_⟩
  · simpa [qf] using hpsd 1 0 0 0
  · simpa [qf] using hpsd 0 1 0 0
  · simpa [qf] using hpsd 0 0 1 0
  · simpa [qf] using hpsd 0 0 0 1

/-- The (0,1) principal 2×2 minor of a symmetric PSD block is non-negative. -/
lemma psd_minor01 (A : Matrix) (hsym : Symm4 A) (hpsd : PSD4 A) :
    A.get 0 1 ^ 2 ≤ A.get 0 0 * A.get 1 1 := by
  obtain ⟨ha, hc, -, -⟩ := psd_diag A hpsd
  obtain ⟨h01, -, -, -, -, -⟩ := hsym
  have h1 := hpsd (A.get 1 1) (-(A.get 0 1)) 0 0
  have h2 := hpsd (A.get 0 1) (-(A.get 0 0 + 1) / 2) 0 0
  simp only [qf] at h1 h2
  rw [← h01] at h1 h2
  rcases hc.lt_or_eq with hcpos | hczero
  · nlinarith [h1]
  · rw [← hczero] at h2
    have hb2 : A.get 0 1 ^ 2 ≤ 0 := by nlinarith [h2]
    have hb : A.get 0 1 = 0 :=
      pow_eq_zero_iff (n := 2) (by norm_num) |>.mp
        (le_antisymm hb2 (sq_nonneg _))
    rw [hb, ← hczero]
    norm_num

/-- The (2,3) principal 2×2 minor of a symmetric PSD block is non-negative. -/
lemma psd_minor23 (A : Matrix) (hsym : Symm4 A) (hpsd : PSD4 A) :
    A.get 2 3 ^ 2 ≤ A.get 2 2 * A.get 3 3 := by
  obtain ⟨-, -, ha, hc⟩ := psd_diag A hpsd
  obtain ⟨-, -, -, -, -, h23⟩ := hsym
  have h1 := hpsd 0 0 (A.get 3 3) (-(A.get 2 3))
  have h2 := hpsd 0 0 (A.get 2 3) (-(A.get 2 2 + 1) / 2)
  simp only [qf] at h1 h2
  rw [← h23] at h1 h2
  rcases hc.lt_or_eq with hcpos | hczero
  · nlinarith [h1]
  · rw [← hczero] at h2
    have hb2 : A.get 2 3 ^ 2 ≤ 0 := by nlinarith [h2]
    have hb : A.get 2 3 = 0 :=
      pow_eq_zero_iff (n := 2) (by norm_num) |>.mp
        (le_antisymm hb2 (sq_nonneg _))
    rw [hb, ← hczero]
    norm_num

/-- Quadratic forms `(c+r)x² − 2bxy + (a+r)y²` built from a PSD 2×2 minor
and a positive noise term are non-negative. -/
lemma quad_nonneg (a b c r x y : ℚ) (ha : 0 ≤ a) (hc : 0 ≤ c)
    (hb : b ^ 2 ≤ a * c) (hr : 0 < r) :
    0 ≤ (c + r) * x ^ 2 - 2 * b * x * y + (a + r) * y ^ 2 := by
  have hcr : 0 < c + r := by linarith
  have hd : 0 ≤ (a + r) * (c + r) - b ^ 2 := by nlinarith
  nlinarith [sq_nonneg ((c + r) * x - b * y), mul_nonneg hd (sq_nonneg y), hcr]

/-- Over a symmetric PSD covariance the GPS innovation determinant is at
least `R00·R11 = 1/16`, far above the `1e-10` singularity threshold. -/
lemma gpsDet_pos (P : Matrix) (hsym : Symm4 P) (hpsd : PSD4 P) :
    1 / 16 ≤ gpsDet P := by
  obtain ⟨ha, hc, -, -⟩ := psd_diag P hpsd
  have hm := psd_minor01 P hsym hpsd
  obtain ⟨h01, -, -, -, -, -⟩ := hsym
  unfold gpsDet
  rw [← h01]
  nlinarith [hm]

/-- Over a symmetric PSD covariance the optical-flow innovation determinant
is at least `R00·R11 = 1/625`. -/
lemma flowDet_pos (P : Matrix) (hsym : Symm4 P) (hpsd : PSD4 P) :
    1 / 625 ≤ flowDet P := by
  obtain ⟨-, -, ha, hc⟩ := psd_diag P hpsd
  have hm := psd_minor23 P hsym hpsd
  obtain ⟨-, -, -, -, -, h23⟩ := hsym
  unfold flowDet
  rw [← h23]
  nlinarith [hm]

/-- Over a symmetric PSD covariance, `update_gps` never takes the singular
branch. -/
lemma gps_not_singular (P : Matrix) (hc4 : P.cols = 4) (hsym : Symm4 P)
    (hpsd : PSD4 P) : ¬ |(NavigationEngine.gpsS P).det2| < eps := by
  rw [det2_gpsS P hc4, not_lt]
  have h := gpsDet_pos P hsym hpsd
  calc eps ≤ 1 / 16 := by norm_num [eps]
    _ ≤ gpsDet P := h
    _ ≤ |gpsDet P| := le_abs_self _

/-- Over a symmetric PSD covariance, `update_optical_flow` never takes the
singular branch. -/
lemma flow_not_singular (P : Matrix) (hc4 : P.cols = 4) (hsym : Symm4 P)
    (hpsd : PSD4 P) : ¬ |(NavigationEngine.flowS P).det2| < eps := by
  rw [det2_flowS P hc4, not_lt]
  have h := flowDet_pos P hsym hpsd
  calc eps ≤ 1 / 625 := by norm_num [eps]
    _ ≤ flowDet P := h
    _ ≤ |flowDet P| := le_abs_self _

/-- Entries of the 2×2 inverse of the GPS innovation covariance, with
`gpsDet` kept folded. -/
lemma inv2_gpsS_get (P : Matrix) (hc : P.cols = 4) :
    (NavigationEngine.gpsS P).inv2.get 0 0 = (P.get 1 1 + 1 / 4) / gpsDet P ∧
    (NavigationEngine.gpsS P).inv2.get 0 1 = -(P.get 0 1) / gpsDet P ∧
    (NavigationEngine.gpsS P).inv2.get 1 0 = -(P.get 1 0) / gpsDet P ∧
    (NavigationEngine.gpsS P).inv2.get 1 1 = (P.get 0 0 + 1 / 4) / gpsDet P := by
  obtain ⟨h00, h01, h10, h11⟩ := gpsS_get P hc
  unfold Matrix.inv2 gpsDet
  refine ⟨?_, ?_, ?_, ?_⟩ <;>
    simp [Matrix.get_set, Matrix.get_new, h00, h01, h10, h11]

/-- Entries of the 2×2 inverse of the optical-flow innovation covariance,
with `flowDet` kept folded. -/
lemma inv2_flowS_get (P : Matrix) (hc : P.cols = 4) :
    (NavigationEngine.flowS P).inv2.get 0 0 = (P.get 3 3 + 1 / 25) / flowDet P ∧
    (NavigationEngine.flowS P).inv2.get 0 1 = -(P.get 2 3) / flowDet P ∧
    (NavigationEngine.flowS P).inv2.get 1 0 = -(P.get 3 2) / flowDet P ∧
    (NavigationEngine.flowS P).inv2.get 1 1 = (P.get 2 2 + 1 / 25) / flowDet P := by
  obtain ⟨h00, h01, h10, h11⟩ := flowS_get P hc
  unfold Matrix.inv2 flowDet
  refine ⟨?_, ?_, ?_, ?_⟩ <;>
    simp [Matrix.get_set, Matrix.get_new, h00, h01, h10, h11]

@[simp] lemma Matrix.rows_inv2 (A : Matrix) : A.inv2.rows = 2 := rfl

@[simp] lemma Matrix.cols_inv2 (A : Matrix) : A.inv2.cols = 2 := rfl

/-- Entrywise form of the covariance written by the GPS update on the
non-singular path: `P' = (I − K·H)·P` row by row, with the gain rows
`K_{i0}, K_{i1}` folded as `gpsK0`/`gpsK1`. -/
lemma gpsPost_P_get (nav : NavigationEngine) (x y : ℚ)
    (hr : nav.P.rows = 4) (hc : nav.P.cols = 4) :
    ∀ j, j < 4 →
      ((nav.gpsPost x y (NavigationEngine.gpsS nav.P).inv2).P.get 0 j =
        nav.P.get 0 j - gpsK0 nav.P 0 * nav.P.get 0 j -
          gpsK1 nav.P 0 * nav.P.get 1 j) ∧
      ((nav.gpsPost x y (NavigationEngine.gpsS nav.P).inv2).P.get 1 j =
        nav.P.get 1 j - gpsK0 nav.P 1 * nav.P.get 0 j -
          gpsK1 nav.P 1 * nav.P.get 1 j) ∧
      ((nav.gpsPost x y (NavigationEngine.gpsS nav.P).inv2).P.get 2 j =
        nav.P.get 2 j - gpsK0 nav.P 2 * nav.P.get 0 j -
          gpsK1 nav.P 2 * nav.P.get 1 j) ∧
      ((nav.gpsPost x y (NavigationEngine.gpsS nav.P).inv2).P.get 3 j =
        nav.P.get 3 j - gpsK0 nav.P 3 * nav.P.get 0 j -
          gpsK1 nav.P 3 * nav.P.get 1 j) := by
  intro j hj
  obtain ⟨e00, e01, e10, e11⟩ := inv2_gpsS_get nav.P hc
  refine ⟨?_, ?_, ?_, ?_⟩ <;>
  · simp [NavigationEngine.gpsPost, NavigationEngine.gpsH,
      Matrix.get_multiplyU, Matrix.get_addU, Matrix.get_subtractU,
      Matrix.get_transpose, Matrix.get_set, Matrix.get_new, Matrix.get_mk,
      hr, hc, hj, e00, e01, e10, e11,
      Finset.sum_range_succ, Finset.sum_range_zero, gpsK0, gpsK1]
    ring

/-- Entrywise form of the covariance written by the optical-flow update on
the non-singular path. -/
lemma flowPost_P_get (nav : NavigationEngine) (x y : ℚ)
    (hr : nav.P.rows = 4) (hc : nav.P.cols = 4) :
    ∀ j, j < 4 →
      ((nav.flowPost x y (NavigationEngine.flowS nav.P).inv2).P.get 0 j =
        nav.P.get 0 j - flowK0 nav.P 0 * nav.P.get 2 j -
          flowK1 nav.P 0 * nav.P.get 3 j) ∧
      ((nav.flowPost x y (NavigationEngine.flowS nav.P).inv2).P.get 1 j =
        nav.P.get 1 j - flowK0 nav.P 1 * nav.P.get 2 j -
          flowK1 nav.P 1 * nav.P.get 3 j) ∧
      ((nav.flowPost x y (NavigationEngine.flowS nav.P).inv2).P.get 2 j =
        nav.P.get 2 j - flowK0 nav.P 2 * nav.P.get 2 j -
          flowK1 nav.P 2 * nav.P.get 3 j) ∧
      ((nav.flowPost x y (NavigationEngine.flowS nav.P).inv2).P.get 3 j =
        nav.P.get 3 j - flowK0 nav.P 3 * nav.P.get 2 j -
          flowK1 nav.P 3 * nav.P.get 3 j) := by
  intro j hj
  obtain ⟨e00, e01, e10, e11⟩ := inv2_flowS_get nav.P hc
  refine ⟨?_, ?_, ?_, ?_⟩ <;>
  · simp [NavigationEngine.flowPost, NavigationEngine.flowH,
      Matrix.get_multiplyU, Matrix.get_addU, Matrix.get_subtractU,
      Matrix.get_transpose, Matrix.get_set, Matrix.get_new, Matrix.get_mk,
      hr, hc, hj, e00, e01, e10, e11,
      Finset.sum_range_succ, Finset.sum_range_zero, flowK0, flowK1]
    ring

/-- Subtraction form of the GPS covariance update: the quadratic form of
`(I−KH)·P` at `v` is the quadratic form of `P` at `v` minus
`wᵀ·adj(S)·w / det(S)` with `w = H·P·v`. -/
lemma gpsPost_qf_sub (nav : NavigationEngine) (x y : ℚ)
    (hr : nav.P.rows = 4) (hc : nav.P.cols = 4) (hsym : Symm4 nav.P)
    (v0 v1 v2 v3 : ℚ) :
    qf (nav.gpsPost x y (NavigationEngine.gpsS nav.P).inv2).P v0 v1 v2 v3 =
      qf nav.P v0 v1 v2 v3 - gpsTheta nav.P v0 v1 v2 v3 / gpsDet nav.P := by
  have g0 := gpsPost_P_get nav x y hr hc 0 (by norm_num)
  have g1 := gpsPost_P_get nav x y hr hc 1 (by norm_num)
  have g2 := gpsPost_P_get nav x y hr hc 2 (by norm_num)
  have g3 := gpsPost_P_get nav x y hr hc 3 (by norm_num)
  obtain ⟨h01, h02, h03, h12, h13, h23⟩ := hsym
  simp only [qf]
  rw [g0.1, g0.2.1, g0.2.2.1, g0.2.2.2, g1.1, g1.2.1, g1.2.2.1,
    g1.2.2.2, g2.1, g2.2.1, g2.2.2.1, g2.2.2.2, g3.1, g3.2.1, g3.2.2.1,
    g3.2.2.2]
  simp only [gpsK0, gpsK1, gpsTheta, gpsW0, gpsW1]
  simp only [← h01, ← h02, ← h03, ← h12, ← h13, ← h23]
  ring

set_option maxHeartbeats 1600000 in
/-- Joseph-form identity for the GPS update, free of division: scaling the
per-update shrink `d·(qf P v) − θ` once more by `d = det(S)` exhibits it
as the quadratic form of `P` at `d·v − Hᵀ·adj(S)·H·P·v` plus the
measurement-noise contribution, both non-negative for PSD `P`. -/
lemma gps_core (P : Matrix) (hsym : Symm4 P) (v0 v1 v2 v3 : ℚ) :
    gpsDet P * (gpsDet P * qf P v0 v1 v2 v3 - gpsTheta P v0 v1 v2 v3) =
      qf P (gpsDet P * v0 - gpsU0 P v0 v1 v2 v3)
        (gpsDet P * v1 - gpsU1 P v0 v1 v2 v3)
        (gpsDet P * v2) (gpsDet P * v3) +
      (1 / 4) * (gpsU0 P v0 v1 v2 v3 ^ 2 + gpsU1 P v0 v1 v2 v3 ^ 2) := by
  obtain ⟨h01, h02, h03, h12, h13, h23⟩ := hsym
  simp only [qf, gpsTheta, gpsU0, gpsU1, gpsW0, gpsW1, gpsDet]
  simp only [← h01, ← h02, ← h03, ← h12, ← h13, ← h23]
  ring

/-- The GPS update preserves positive semidefiniteness of the covariance. -/
lemma gpsPost_psd (nav : NavigationEngine) (x y : ℚ)
    (hr : nav.P.rows = 4) (hc : nav.P.cols = 4) (hsym : Symm4 nav.P)
    (hpsd : PSD4 nav.P) :
    PSD4 (nav.gpsPost x y (NavigationEngine.gpsS nav.P).inv2).P := by
  intro v0 v1 v2 v3
  have hdpos : 0 < gpsDet nav.P :=
    lt_of_lt_of_le (by norm_num) (gpsDet_pos nav.P hsym hpsd)
  have hA := gpsPost_qf_sub nav x y hr hc hsym v0 v1 v2 v3
  have hC := gps_core nav.P hsym v0 v1 v2 v3
  have hz := hpsd (gpsDet nav.P * v0 - gpsU0 nav.P v0 v1 v2 v3)
    (gpsDet nav.P * v1 - gpsU1 nav.P v0 v1 v2 v3)
    (gpsDet nav.P * v2) (gpsDet nav.P * v3)
  have hsq : 0 ≤ (1 / 4 : ℚ) * (gpsU0 nav.P v0 v1 v2 v3 ^ 2 +
      gpsU1 nav.P v0 v1 v2 v3 ^ 2) := by positivity
  have h1 : 0 ≤ gpsDet nav.P *
      (gpsDet nav.P * qf nav.P v0 v1 v2 v3 -
        gpsTheta nav.P v0 v1 v2 v3) := by
    rw [hC]; linarith
  have h2 : 0 ≤ gpsDet nav.P * qf nav.P v0 v1 v2 v3 -
      gpsTheta nav.P v0 v1 v2 v3 := by nlinarith [h1, hdpos]
  have h3 : gpsTheta nav.P v0 v1 v2 v3 / gpsDet nav.P ≤
      qf nav.P v0 v1 v2 v3 := by
    rw [div_le_iff₀ hdpos]; nlinarith [h2]
  rw [hA]; linarith

/-- Subtraction form of the optical-flow covariance update. -/
lemma flowPost_qf_sub (nav : NavigationEngine) (x y : ℚ)
    (hr : nav.P.rows = 4) (hc : nav.P.cols = 4) (hsym : Symm4 nav.P)
    (v0 v1 v2 v3 : ℚ) :
    qf (nav.flowPost x y (NavigationEngine.flowS nav.P).inv2).P v0 v1 v2 v3 =
      qf nav.P v0 v1 v2 v3 - flowTheta nav.P v0 v1 v2 v3 / flowDet nav.P := by
  have g0 := flowPost_P_get nav x y hr hc 0 (by norm_num)
  have g1 := flowPost_P_get nav x y hr hc 1 (by norm_num)
  have g2 := flowPost_P_get nav x y hr hc 2 (by norm_num)
  have g3 := flowPost_P_get nav x y hr hc 3 (by norm_num)
  obtain ⟨h01, h02, h03, h12, h13, h23⟩ := hsym
  simp only [qf]
  rw [g0.1, g0.2.1, g0.2.2.1, g0.2.2.2, g1.1, g1.2.1, g1.2.2.1,
    g1.2.2.2, g2.1, g2.2.1, g2.2.2.1, g2.2.2.2, g3.1, g3.2.1, g3.2.2.1,
    g3.2.2.2]
  simp only [flowK0, flowK1, flowTheta, flowW0, flowW1]
  simp only [← h01, ← h02, ← h03, ← h12, ← h13, ← h23]
  ring

set_option maxHeartbeats 1600000 in
/-- Joseph-form identity for the optical-flow update, free of division. -/
lemma flow_core (P : Matrix) (hsym : Symm4 P) (v0 v1 v2 v3 : ℚ) :
    flowDet P * (flowDet P * qf P v0 v1 v2 v3 - flowTheta P v0 v1 v2 v3) =
      qf P (flowDet P * v0) (flowDet P * v1)
        (flowDet P * v2 - flowU0 P v0 v1 v2 v3)
        (flowDet P * v3 - flowU1 P v0 v1 v2 v3) +
      (1 / 25) * (flowU0 P v0 v1 v2 v3 ^ 2 + flowU1 P v0 v1 v2 v3 ^ 2) := by
  obtain ⟨h01, h02, h03, h12, h13, h23⟩ := hsym
  simp only [qf, flowTheta, flowU0, flowU1, flowW0, flowW1, flowDet]
  simp only [← h01, ← h02, ← h03, ← h12, ← h13, ← h23]
  ring

/-- The optical-flow update preserves positive semidefiniteness. -/
lemma flowPost_psd (nav : NavigationEngine) (x y : ℚ)
    (hr : nav.P.rows = 4) (hc : nav.P.cols = 4) (hsym : Symm4 nav.P)
    (hpsd : PSD4 nav.P) :
    PSD4 (nav.flowPost x y (NavigationEngine.flowS nav.P).inv2).P := by
  intro v0 v1 v2 v3
  have hdpos : 0 < flowDet nav.P :=
    lt_of_lt_of_le (by norm_num) (flowDet_pos nav.P hsym hpsd)
  have hA := flowPost_qf_sub nav x y hr hc hsym v0 v1 v2 v3
  have hC := flow_core nav.P hsym v0 v1 v2 v3
  have hz := hpsd (flowDet nav.P * v0) (flowDet nav.P * v1)
    (flowDet nav.P * v2 - flowU0 nav.P v0 v1 v2 v3)
    (flowDet nav.P * v3 - flowU1 nav.P v0 v1 v2 v3)
  have hsq : 0 ≤ (1 / 25 : ℚ) * (flowU0 nav.P v0 v1 v2 v3 ^ 2 +
      flowU1 nav.P v0 v1 v2 v3 ^ 2) := by positivity
  have h1 : 0 ≤ flowDet nav.P *
      (flowDet nav.P * qf nav.P v0 v1 v2 v3 -
        flowTheta nav.P v0 v1 v2 v3) := by
    rw [hC]; linarith
  have h2 : 0 ≤ flowDet nav.P * qf nav.P v0 v1 v2 v3 -
      flowTheta nav.P v0 v1 v2 v3 := by nlinarith [h1, hdpos]
  have h3 : flowTheta nav.P v0 v1 v2 v3 / flowDet nav.P ≤
      qf nav.P v0 v1 v2 v3 := by
    rw [div_le_iff₀ hdpos]; nlinarith [h2]
  rw [hA]; linarith

/-- Symmetry of the covariance written by the optical-flow update. -/
lemma flowPost_symm (nav : NavigationEngine) (x y : ℚ)
    (hr : nav.P.rows = 4) (hc : nav.P.cols = 4) (hsym : Symm4 nav.P) :
    Symm4 (nav.flowPost x y (NavigationEngine.flowS nav.P).inv2).P := by
  have g0 := flowPost_P_get nav x y hr hc 0 (by norm_num)
  have g1 := flowPost_P_get nav x y hr hc 1 (by norm_num)
  have g2 := flowPost_P_get nav x y hr hc 2 (by norm_num)
  have g3 := flowPost_P_get nav x y hr hc 3 (by norm_num)
  obtain ⟨h01, h02, h03, h12, h13, h23⟩ := hsym
  refine ⟨?_, ?_, ?_, ?_, ?_, ?_⟩
  · rw [g1.1, g0.2.1]
    simp only [flowK0, flowK1]
    simp only [← h01, ← h02, ← h03, ← h12, ← h13, ← h23]
    ring
  · rw [g2.1, g0.2.2.1]
    simp only [flowK0, flowK1]
    simp only [← h01, ← h02, ← h03, ← h12, ← h13, ← h23]
    ring
  · rw [g3.1, g0.2.2.2]
    simp only [flowK0, flowK1]
    simp only [← h01, ← h02, ← h03, ← h12, ← h13, ← h23]
    ring
  · rw [g2.2.1, g1.2.2.1]
    simp only [flowK0, flowK1]
    simp only [← h01, ← h02, ← h03, ← h12, ← h13, ← h23]
    ring
  · rw [g3.2.1, g1.2.2.2]
    simp only [flowK0, flowK1]
    simp only [← h01, ← h02, ← h03, ← h12, ← h13, ← h23]
    ring
  · rw [g3.2.2.1, g2.2.2.2]
    simp only [flowK0, flowK1]
    simp only [← h01, ← h02, ← h03, ← h12, ← h13, ← h23]
    ring

/-- Symmetry of the covariance written by the GPS update. -/
lemma gpsPost_symm (nav : NavigationEngine) (x y : ℚ)
    (hr : nav.P.rows = 4) (hc : nav.P.cols = 4) (hsym : Symm4 nav.P) :
    Symm4 (nav.gpsPost x y (NavigationEngine.gpsS nav.P).inv2).P := by
  have g0 := gpsPost_P_get nav x y hr hc 0 (by norm_num)
  have g1 := gpsPost_P_get nav x y hr hc 1 (by norm_num)
  have g2 := gpsPost_P_get nav x y hr hc 2 (by norm_num)
  have g3 := gpsPost_P_get nav x y hr hc 3 (by norm_num)
  obtain ⟨h01, h02, h03, h12, h13, h23⟩ := hsym
  refine ⟨?_, ?_, ?_, ?_, ?_, ?_⟩
  · rw [g1.1, g0.2.1]
    simp only [gpsK0, gpsK1]
    simp only [← h01, ← h02, ← h03, ← h12, ← h13, ← h23]
    ring
  · rw [g2.1, g0.2.2.1]
    simp only [gpsK0, gpsK1]
    simp only [← h01, ← h02, ← h03, ← h12, ← h13, ← h23]
    ring
  · rw [g3.1, g0.2.2.2]
    simp only [gpsK0, gpsK1]
    simp only [← h01, ← h02, ← h03, ← h12, ← h13, ← h23]
    ring
  · rw [g2.2.1, g1.2.2.1]
    simp only [gpsK0, gpsK1]
    simp only [← h01, ← h02, ← h03, ← h12, ← h13, ← h23]
    ring
  · rw [g3.2.1, g1.2.2.2]
    simp only [gpsK0, gpsK1]
    simp only [← h01, ← h02, ← h03, ← h12, ← h13, ← h23]
    ring
  · rw [g3.2.2.1, g2.2.2.2]
    simp only [gpsK0, gpsK1]
    simp only [← h01, ← h02, ← h03, ← h12, ← h13, ← h23]
    ring

/-- The GPS update never increases the covariance trace (over a symmetric
PSD covariance): the trace decreases by a sum of four non-negative
quadratic forms divided by the positive innovation determinant. -/
lemma gpsPost_trace_le (nav : NavigationEngine) (x y : ℚ)
    (hr : nav.P.rows = 4) (hc : nav.P.cols = 4) (hsym : Symm4 nav.P)
    (hpsd : PSD4 nav.P) :
    (nav.gpsPost x y (NavigationEngine.gpsS nav.P).inv2).covTrace ≤
      nav.covTrace := by
  have hdpos : 0 < gpsDet nav.P :=
    lt_of_lt_of_le (by norm_num) (gpsDet_pos nav.P hsym hpsd)
  obtain ⟨ha, hb, -, -⟩ := psd_diag nav.P hpsd
  have hm := psd_minor01 nav.P hsym hpsd
  have g0 := gpsPost_P_get nav x y hr hc 0 (by norm_num)
  have g1 := gpsPost_P_get nav x y hr hc 1 (by norm_num)
  have g2 := gpsPost_P_get nav x y hr hc 2 (by norm_num)
  have g3 := gpsPost_P_get nav x y hr hc 3 (by norm_num)
  obtain ⟨h01, h02, h03, h12, h13, h23⟩ := hsym
  have hq : ∀ xx yy : ℚ, 0 ≤
      (nav.P.get 1 1 + 1 / 4) * xx ^ 2 -
        2 * nav.P.get 0 1 * xx * yy + (nav.P.get 0 0 + 1 / 4) * yy ^ 2 :=
    fun xx yy => quad_nonneg (nav.P.get 0 0) (nav.P.get 0 1)
      (nav.P.get 1 1) (1 / 4) xx yy ha hb hm (by norm_num)
  have key0 : gpsK0 nav.P 0 * nav.P.get 0 0 + gpsK1 nav.P 0 * nav.P.get 1 0 =
      ((nav.P.get 1 1 + 1 / 4) * nav.P.get 0 0 ^ 2 -
        2 * nav.P.get 0 1 * nav.P.get 0 0 * nav.P.get 1 0 +
        (nav.P.get 0 0 + 1 / 4) * nav.P.get 1 0 ^ 2) / gpsDet nav.P := by
    simp only [gpsK0, gpsK1]
    simp only [← h01, ← h02, ← h03, ← h12, ← h13, ← h23]
    ring
  have key1 : gpsK0 nav.P 1 * nav.P.get 0 1 + gpsK1 nav.P 1 * nav.P.get 1 1 =
      ((nav.P.get 1 1 + 1 / 4) * nav.P.get 0 1 ^ 2 -
        2 * nav.P.get 0 1 * nav.P.get 0 1 * nav.P.get 1 1 +
        (nav.P.get 0 0 + 1 / 4) * nav.P.get 1 1 ^ 2) / gpsDet nav.P := by
    simp only [gpsK0, gpsK1]
    simp only [← h01, ← h02, ← h03, ← h12, ← h13, ← h23]
    ring
  have key2 : gpsK0 nav.P 2 * nav.P.get 0 2 + gpsK1 nav.P 2 * nav.P.get 1 2 =
      ((nav.P.get 1 1 + 1 / 4) * nav.P.get 0 2 ^ 2 -
        2 * nav.P.get 0 1 * nav.P.get 0 2 * nav.P.get 1 2 +
        (nav.P.get 0 0 + 1 / 4) * nav.P.get 1 2 ^ 2) / gpsDet nav.P := by
    simp only [gpsK0, gpsK1]
    simp only [← h01, ← h02, ← h03, ← h12, ← h13, ← h23]
    ring
  have key3 : gpsK0 nav.P 3 * nav.P.get 0 3 + gpsK1 nav.P 3 * nav.P.get 1 3 =
      ((nav.P.get 1 1 + 1 / 4) * nav.P.get 0 3 ^ 2 -
        2 * nav.P.get 0 1 * nav.P.get 0 3 * nav.P.get 1 3 +
        (nav.P.get 0 0 + 1 / 4) * nav.P.get 1 3 ^ 2) / gpsDet nav.P := by
    simp only [gpsK0, gpsK1]
    simp only [← h01, ← h02, ← h03, ← h12, ← h13, ← h23]
    ring
  have pos0 := div_nonneg (hq (nav.P.get 0 0) (nav.P.get 1 0)) hdpos.le
  have pos1 := div_nonneg (hq (nav.P.get 0 1) (nav.P.get 1 1)) hdpos.le
  have pos2 := div_nonneg (hq (nav.P.get 0 2) (nav.P.get 1 2)) hdpos.le
  have pos3 := div_nonneg (hq (nav.P.get 0 3) (nav.P.get 1 3)) hdpos.le
  unfold NavigationEngine.covTrace
  simp only [Finset.sum_range_succ, Finset.sum_range_zero]
  rw [g0.1, g1.2.1, g2.2.2.1, g3.2.2.2]
  linarith [key0, key1, key2, key3, pos0, pos1, pos2, pos3]

/-- Entrywise form of the covariance written by `predict()`:
`P ← F·P·Fᵀ + Q` with the constant-velocity `F` and diagonal `Q` installed
by `__init__` (`dt = 0.1`). -/
lemma predict_P_get (nav : NavigationEngine) (hc : nav.P.cols = 4)
    (hF : nav.F = NavigationEngine.init.F)
    (hQ : nav.Q = NavigationEngine.init.Q) :
    (nav.predict).P.get 0 0 = nav.P.get 0 0 + (1 / 10) * nav.P.get 0 2 +
      (1 / 10) * nav.P.get 2 0 + (1 / 100) * nav.P.get 2 2 + 1 / 1000 ∧
    (nav.predict).P.get 0 1 = nav.P.get 0 1 + (1 / 10) * nav.P.get 0 3 +
      (1 / 10) * nav.P.get 2 1 + (1 / 100) * nav.P.get 2 3 ∧
    (nav.predict).P.get 0 2 = nav.P.get 0 2 + (1 / 10) * nav.P.get 2 2 ∧
    (nav.predict).P.get 0 3 = nav.P.get 0 3 + (1 / 10) * nav.P.get 2 3 ∧
    (nav.predict).P.get 1 0 = nav.P.get 1 0 + (1 / 10) * nav.P.get 1 2 +
      (1 / 10) * nav.P.get 3 0 + (1 / 100) * nav.P.get 3 2 ∧
    (nav.predict).P.get 1 1 = nav.P.get 1 1 + (1 / 10) * nav.P.get 1 3 +
      (1 / 10) * nav.P.get 3 1 + (1 / 100) * nav.P.get 3 3 + 1 / 1000 ∧
    (nav.predict).P.get 1 2 = nav.P.get 1 2 + (1 / 10) * nav.P.get 3 2 ∧
    (nav.predict).P.get 1 3 = nav.P.get 1 3 + (1 / 10) * nav.P.get 3 3 ∧
    (nav.predict).P.get 2 0 = nav.P.get 2 0 + (1 / 10) * nav.P.get 2 2 ∧
    (nav.predict).P.get 2 1 = nav.P.get 2 1 + (1 / 10) * nav.P.get 2 3 ∧
    (nav.predict).P.get 2 2 = nav.P.get 2 2 + 1 / 100 ∧
    (nav.predict).P.get 2 3 = nav.P.get 2 3 ∧
    (nav.predict).P.get 3 0 = nav.P.get 3 0 + (1 / 10) * nav.P.get 3 2 ∧
    (nav.predict).P.get 3 1 = nav.P.get 3 1 + (1 / 10) * nav.P.get 3 3 ∧
    (nav.predict).P.get 3 2 = nav.P.get 3 2 ∧
    (nav.predict).P.get 3 3 = nav.P.get 3 3 + 1 / 100 := by
  unfold NavigationEngine.predict
  rw [hF, hQ]
  refine ⟨?_, ?_, ?_, ?_, ?_, ?_, ?_, ?_, ?_, ?_, ?_, ?_, ?_, ?_, ?_, ?_⟩ <;>
    simp [NavigationEngine.init, NavigationEngine.update_F_matrix,
      Matrix.get_addU, Matrix.get_multiplyU, Matrix.get_transpose,
      Matrix.get_set, Matrix.get_new, hc, Finset.sum_range_succ] <;>
    ring

/-- Dimensions of the covariance written by `predict()`. -/
lemma predict_P_dims (nav : NavigationEngine)
    (hF : nav.F = NavigationEngine.init.F) :
    (nav.predict).P.rows = 4 ∧ (nav.predict).P.cols = 4 := by
  unfold NavigationEngine.predict
  rw [hF]
  exact ⟨rfl, rfl⟩

/-- `predict()` preserves symmetry of the covariance. -/
lemma predict_symm (nav : NavigationEngine) (hc : nav.P.cols = 4)
    (hF : nav.F = NavigationEngine.init.F)
    (hQ : nav.Q = NavigationEngine.init.Q) (hsym : Symm4 nav.P) :
    Symm4 (nav.predict).P := by
  obtain ⟨e1, e2, e3, e4, e5, e6, e7, e8, e9, e10, e11, e12, e13, e14,
    e15, e16⟩ := predict_P_get nav hc hF hQ
  obtain ⟨h01, h02, h03, h12, h13, h23⟩ := hsym
  refine ⟨?_, ?_, ?_, ?_, ?_, ?_⟩
  · rw [e2, e5]; linarith
  · rw [e3, e9]; linarith
  · rw [e4, e13]; linarith
  · rw [e7, e10]; linarith
  · rw [e8, e14]; linarith
  · rw [e12, e15]; linarith

/-- Quadratic-form transport through `predict()`:
`qf(F·P·Fᵀ + Q) v = qf P (Fᵀv) + qf Q v`. -/
lemma predict_qf (nav : NavigationEngine) (hc : nav.P.cols = 4)
    (hF : nav.F = NavigationEngine.init.F)
    (hQ : nav.Q = NavigationEngine.init.Q) (v0 v1 v2 v3 : ℚ) :
    qf (nav.predict).P v0 v1 v2 v3 =
      qf nav.P v0 v1 ((1 / 10) * v0 + v2) ((1 / 10) * v1 + v3) +
      (1 / 1000) * (v0 ^ 2 + v1 ^ 2) + (1 / 100) * (v2 ^ 2 + v3 ^ 2) := by
  obtain ⟨e1, e2, e3, e4, e5, e6, e7, e8, e9, e10, e11, e12, e13, e14,
    e15, e16⟩ := predict_P_get nav hc hF hQ
  simp only [qf]
  rw [e1, e2, e3, e4, e5, e6, e7, e8, e9, e10, e11, e12, e13, e14, e15, e16]
  ring

/-- `predict()` preserves positive semidefiniteness. -/
lemma predict_psd (nav : NavigationEngine) (hc : nav.P.cols = 4)
    (hF : nav.F = NavigationEngine.init.F)
    (hQ : nav.Q = NavigationEngine.init.Q) (hpsd : PSD4 nav.P) :
    PSD4 (nav.predict).P := by
  intro v0 v1 v2 v3
  rw [predict_qf nav hc hF hQ v0 v1 v2 v3]
  have h := hpsd v0 v1 ((1 / 10) * v0 + v2) ((1 / 10) * v1 + v3)
  positivity

/-- Symmetry of the initial covariance `diag(100, 100, 10, 10)`. -/
lemma init_symm : Symm4 NavigationEngine.init.P := by
  refine ⟨?_, ?_, ?_, ?_, ?_, ?_⟩ <;>
    simp [NavigationEngine.init, Matrix.get_set, Matrix.get_new]

/-- Positive semidefiniteness of the initial covariance. -/
lemma init_psd : PSD4 NavigationEngine.init.P := by
  intro v0 v1 v2 v3
  simp only [qf, NavigationEngine.init, Matrix.get_set, Matrix.get_new]
  norm_num
  nlinarith [sq_nonneg v0, sq_nonneg v1, sq_nonneg v2, sq_nonneg v3]

/-- The estimator invariant holds at `__init__`. -/
lemma goodnav_init : GoodNav NavigationEngine.init :=
  ⟨rfl, rfl, init_symm, init_psd, rfl, rfl⟩

/-- `predict()` preserves the estimator invariant. -/
lemma goodnav_predict (nav : NavigationEngine) (h : GoodNav nav) :
    GoodNav nav.predict := by
  obtain ⟨hr, hc, hsym, hpsd, hF, hQ⟩ := h
  obtain ⟨hr', hc'⟩ := predict_P_dims nav hF
  exact ⟨hr', hc', predict_symm nav hc hF hQ hsym,
    predict_psd nav hc hF hQ hpsd, hF, hQ⟩

/-- `update_gps(...)` preserves the estimator invariant (it takes the
non-singular branch whenever the invariant holds). -/
lemma goodnav_gps (nav : NavigationEngine) (x y z : ℚ) (h : GoodNav nav) :
    GoodNav (nav.update_gps x y z).1 := by
  obtain ⟨hr, hc, hsym, hpsd, hF, hQ⟩ := h
  rw [update_gps_ok nav x y z (gps_not_singular nav.P hc hsym hpsd)]
  exact ⟨rfl, hc, gpsPost_symm nav x y hr hc hsym,
    gpsPost_psd nav x y hr hc hsym hpsd, hF, hQ⟩

/-- `update_optical_flow(...)` preserves the estimator invariant. -/
lemma goodnav_flow (nav : NavigationEngine) (x y : ℚ) (h : GoodNav nav) :
    GoodNav (nav.update_optical_flow x y) := by
  obtain ⟨hr, hc, hsym, hpsd, hF, hQ⟩ := h
  rw [update_flow_ok nav x y (flow_not_singular nav.P hc hsym hpsd)]
  exact ⟨rfl, hc, flowPost_symm nav x y hr hc hsym,
    flowPost_psd nav x y hr hc hsym hpsd, hF, hQ⟩

/-- Every estimator state reachable from `__init__` satisfies the
invariant: 4×4 symmetric PSD covariance and the constant model matrices. -/
lemma navReachable_good (nav : NavigationEngine) (h : NavReachable nav) :
    GoodNav nav := by
  induction h with
  | init => exact goodnav_init
  | predict _ ih => exact goodnav_predict _ ih
  | gps x y z _ ih => exact goodnav_gps _ x y z ih
  | flow x y _ ih => exact goodnav_flow _ x y ih

/-- C8: the diagonal entries of the estimator covariance are non-negative
after initialization and stay non-negative after every `predict()`,
`update_gps()` and `update_optical_flow()` call, for all measurement
inputs. -/
theorem C8_covariance_diag_nonneg (nav : NavigationEngine)
    (h : NavReachable nav) : ∀ i, i < 4 → 0 ≤ nav.P.get i i := by
  obtain ⟨-, -, -, hpsd, -, -⟩ := navReachable_good nav h
  intro i hi
  interval_cases i
  · simpa [qf] using hpsd 1 0 0 0
  · simpa [qf] using hpsd 0 1 0 0
  · simpa [qf] using hpsd 0 0 1 0
  · simpa [qf] using hpsd 0 0 0 1

/-- Witness for C8 on a concrete reachable state (one predict, one GPS
update, one flow update from `__init__`). -/
theorem C8_witness :
    0 ≤ ((NavigationEngine.init.predict.update_gps 1 2 3).1.update_optical_flow
      4 5).P.get 0 0 :=
  C8_covariance_diag_nonneg _
    (NavReachable.flow 4 5 (NavReachable.gps 1 2 3
      (NavReachable.predict NavReachable.init))) 0 (by norm_num)

/-- C5: from any filter state with a symmetric positive-semidefinite 4×4
covariance, a GPS update at the predicted observation `H·x` (the current
position estimate; the ignored `gps_z` argument is arbitrary) succeeds and
does not increase the covariance trace. -/
theorem C5_gps_consistent_trace (nav : NavigationEngine)
    (hr : nav.P.rows = 4) (hc : nav.P.cols = 4) (hsym : Symm4 nav.P)
    (hpsd : PSD4 nav.P) (gz : ℚ) :
    ∃ nav', nav.update_gps (nav.state.get 0 0) (nav.state.get 1 0) gz =
        (nav', none) ∧
      nav'.covTrace ≤ nav.covTrace :=
  ⟨_, update_gps_ok nav _ _ _ (gps_not_singular nav.P hc hsym hpsd),
    gpsPost_trace_le nav _ _ hr hc hsym hpsd⟩

/-- Witness for C5 at the initial filter state. -/
theorem C5_witness :
    ∃ nav', NavigationEngine.init.update_gps
        (NavigationEngine.init.state.get 0 0)
        (NavigationEngine.init.state.get 1 0) 5 = (nav', none) ∧
      nav'.covTrace ≤ NavigationEngine.init.covTrace :=
  C5_gps_consistent_trace NavigationEngine.init rfl rfl init_symm init_psd 5

/-- C3: when the 2×2 innovation-covariance inversion is singular,
`update_optical_flow` returns the filter completely unchanged, while
`update_gps` propagates the singular-matrix error with the filter state
and covariance untouched (the raise precedes every assignment). -/
theorem C3_singular_paths (nav : NavigationEngine) (zx zy zz fx fy : ℚ)
    (hg : |(NavigationEngine.gpsS nav.P).det2| < eps)
    (hf : |(NavigationEngine.flowS nav.P).det2| < eps) :
    nav.update_optical_flow fx fy = nav ∧
    nav.update_gps zx zy zz =
      (nav, some "Matrix is singular (determinant is zero)") :=
  ⟨update_flow_singular nav fx fy hf, update_gps_singular nav zx zy zz hg⟩

/-- Witness for C3 at a concrete state with both innovation covariances
exactly singular. -/
theorem C3_witness :
    navSing.update_optical_flow 7 8 = navSing ∧
    navSing.update_gps 1 2 3 =
      (navSing, some "Matrix is singular (determinant is zero)") :=
  C3_singular_paths navSing 1 2 3 7 8
    (by
      rw [det2_gpsS _ rfl]
      simp [gpsDet, navSing, singP, eps])
    (by
      rw [det2_flowS _ rfl]
      simp [flowDet, navSing, singP, eps])

/-- Stability of the model matrices plus sign facts along pure
dead-reckoning: after `n` predicts the cross covariances
`P02, P20, P13, P31` and the velocity variances `P22, P33` are
non-negative. -/
lemma predictN_stable (n : ℕ) :
    (predictN n).F = NavigationEngine.init.F ∧
    (predictN n).Q = NavigationEngine.init.Q ∧
    (predictN n).P.cols = 4 ∧
    0 ≤ (predictN n).P.get 0 2 ∧ 0 ≤ (predictN n).P.get 2 0 ∧
    0 ≤ (predictN n).P.get 1 3 ∧ 0 ≤ (predictN n).P.get 3 1 ∧
    0 ≤ (predictN n).P.get 2 2 ∧ 0 ≤ (predictN n).P.get 3 3 := by
  induction n with
  | zero =>
    refine ⟨rfl, rfl, rfl, ?_, ?_, ?_, ?_, ?_, ?_⟩ <;>
      simp [predictN, NavigationEngine.init, Matrix.get_set, Matrix.get_new]
  | succ n ih =>
    obtain ⟨hF, hQ, hc, n02, n20, n13, n31, n22, n33⟩ := ih
    have hstep : predictN (n + 1) = (predictN n).predict := by
      unfold predictN
      rw [Function.iterate_succ_apply']
    obtain ⟨e1, e2, e3, e4, e5, e6, e7, e8, e9, e10, e11, e12, e13, e14,
      e15, e16⟩ := predict_P_get (predictN n) hc hF hQ
    obtain ⟨-, hc'⟩ := predict_P_dims (predictN n) hF
    rw [hstep]
    refine ⟨hF, hQ, hc', ?_, ?_, ?_, ?_, ?_, ?_⟩
    · rw [e3]; linarith
    · rw [e9]; linarith
    · rw [e8]; linarith
    · rw [e14]; linarith
    · rw [e11]; linarith
    · rw [e16]; linarith

/-- C4: starting from the initial covariance, each further `predict()`
with no intervening update strictly increases the covariance trace. -/
theorem C4_predict_trace_increases (n : ℕ) :
    (predictN n).covTrace < (predictN (n + 1)).covTrace := by
  obtain ⟨hF, hQ, hc, n02, n20, n13, n31, n22, n33⟩ := predictN_stable n
  have hstep : predictN (n + 1) = (predictN n).predict := by
    unfold predictN
    rw [Function.iterate_succ_apply']
  obtain ⟨e1, e2, e3, e4, e5, e6, e7, e8, e9, e10, e11, e12, e13, e14,
    e15, e16⟩ := predict_P_get (predictN n) hc hF hQ
  rw [hstep]
  unfold NavigationEngine.covTrace
  simp only [Finset.sum_range_succ, Finset.sum_range_zero]
  rw [e1, e6, e11, e16]
  linarith

/-- Witness for C4 at `n = 0`. -/
theorem C4_witness :
    (predictN 0).covTrace < (predictN 1).covTrace :=
  C4_predict_trace_increases 0

/-- Administrative fields preserved (or advanced) by
`MissionSimulator.update`. -/
lemma mission_update_admin (m : MissionSimulator) (pos : ℚ × ℚ × ℚ) :
    (m.update pos).dt = m.dt ∧
    (m.update pos).mission_duration = m.mission_duration ∧
    (m.update pos).jamming_start_time = m.jamming_start_time ∧
    (m.update pos).jamming_end_time = m.jamming_end_time ∧
    (m.update pos).current_time = m.current_time + m.dt ∧
    (m.update pos).mission_active =
      (if m.mission_duration ≤ m.current_time + m.dt then false
       else m.mission_active) := by
  unfold MissionSimulator.update
  by_cases hj : m.jamming_start_time ≤ m.current_time + m.dt ∧
      m.current_time + m.dt ≤ m.jamming_end_time <;>
    simp only [hj, if_true, if_false, ite_true, ite_false, if_pos, if_neg,
      not_false_iff] <;>
    split_ifs <;>
    simp_all [MissionSimulator.set_waypoint_reached] <;>
    split_ifs <;>
    simp_all <;>
    linarith

/-- Administrative fields preserved by `MissionSimulator.update_error`. -/
lemma update_error_admin (m : MissionSimulator) (e : ℚ) :
    (m.update_error e).dt = m.dt ∧
    (m.update_error e).mission_duration = m.mission_duration ∧
    (m.update_error e).jamming_start_time = m.jamming_start_time ∧
    (m.update_error e).current_time = m.current_time ∧
    (m.update_error e).mission_active = m.mission_active := by
  simp only [MissionSimulator.update_error]
  split_ifs <;> simp

/-- One orchestrator `step()` from an invariant state succeeds (the GPS
update cannot be singular), keeps the invariant, appends exactly one
trajectory entry, and that entry reports the GPS as `ACTIVE` — because
`Simulator` never calls `set_gps_jamming`, the sensor model never
invalidates a fix. -/
lemma step_inv (s : Simulator) (inp : TickInput) (h : SimInv s) :
    ∃ s', s.step inp = Except.ok s' ∧ SimInv s' ∧
      s'.trajectory_data.length = s.trajectory_data.length + 1 ∧
      (∀ e ∈ s'.trajectory_data,
        e ∈ s.trajectory_data ∨ e.gps_status = "ACTIVE") := by
  obtain ⟨hjam, hgood, hdt, hmdt, hdur, hjs, htime, hact⟩ := h
  have hg0 : GoodNav s.navigation.predict := goodnav_predict _ hgood
  obtain ⟨hr0, hc0, hsym0, hpsd0, hF0, hQ0⟩ := hg0
  have hns := gps_not_singular _ hc0 hsym0 hpsd0
  unfold Simulator.step
  simp only [SensorSimulator.measure_all, SensorSimulator.measure_gps,
    SensorSimulator.measure_accelerometer, SensorSimulator.measure_gyroscope,
    SensorSimulator.measure_magnetometer, SensorSimulator.measure_barometer,
    SensorSimulator.measure_optical_flow, hjam, Bool.false_eq_true,
    if_false, ite_false, ite_true]
  rw [update_gps_ok _ _ _ _ hns]
  have hg1 : GoodNav (s.navigation.predict.gpsPost
      (s.physics.position_x + inp.noise.gps_x)
      (s.physics.position_y + inp.noise.gps_y)
      (NavigationEngine.gpsS s.navigation.predict.P).inv2) :=
    ⟨rfl, hc0,
      gpsPost_symm _ _ _ hr0 hc0 hsym0,
      gpsPost_psd _ _ _ hr0 hc0 hsym0 hpsd0, hF0, hQ0⟩
  have hg2 := goodnav_flow _ (s.physics.velocity_x + inp.noise.flow_x)
    (s.physics.velocity_y + inp.noise.flow_y) hg1
  refine ⟨_, rfl, ⟨rfl, hg2, hdt, ?_, ?_, ?_, ?_, ?_⟩, by simp, ?_⟩
  · rw [(update_error_admin _ _).1, (mission_update_admin _ _).1]
    exact hmdt
  · rw [(update_error_admin _ _).2.1, (mission_update_admin _ _).2.1]
    exact hdur
  · rw [(update_error_admin _ _).2.2.1, (mission_update_admin _ _).2.2.1]
    exact hjs
  · rw [(update_error_admin _ _).2.2.2.1,
      (mission_update_admin _ _).2.2.2.2.1]
    show s.mission.current_time + s.mission.dt = _
    rw [htime, hmdt]
    simp [List.length_append]
    push_cast
    ring
  · rw [(update_error_admin _ _).2.2.2.2,
      (mission_update_admin _ _).2.2.2.2.2]
    show (if s.mission.mission_duration ≤
        s.mission.current_time + s.mission.dt then false
      else s.mission.mission_active) = _
    rw [htime, hmdt, hdur, hact]
    simp only [List.length_append, List.length_singleton]
    rcases lt_or_ge (s.trajectory_data.length + 1) 900 with hlt | hge
    · rw [if_neg ?side]
      · have h1 : s.trajectory_data.length < 900 := by omega
        simp [hlt, h1]
      case side =>
        push_neg
        have : ((s.trajectory_data.length : ℚ) + 1) / 10 < 90 := by
          have : (s.trajectory_data.length : ℚ) + 1 < 900 := by
            exact_mod_cast hlt
          linarith
        calc (s.trajectory_data.length : ℚ) / 10 + 1 / 10
            = ((s.trajectory_data.length : ℚ) + 1) / 10 := by ring
          _ < 90 := this
    · rw [if_pos ?side2]
      · have h1 : ¬ s.trajectory_data.length + 1 < 900 := by omega
        simp [h1]
      case side2 =>
        have : (900 : ℚ) ≤ (s.trajectory_data.length : ℚ) + 1 := by
          exact_mod_cast hge
        calc (90 : ℚ) = 900 / 10 := by norm_num
          _ ≤ ((s.trajectory_data.length : ℚ) + 1) / 10 := by linarith
          _ = (s.trajectory_data.length : ℚ) / 10 + 1 / 10 := by ring
  · intro e he
    rcases List.mem_append.mp he with h | h
    · exact Or.inl h
    · right
      have : e = _ := List.mem_singleton.mp h
      rw [this]

/-- The orchestrator invariant holds at construction. -/
lemma simInv_init : SimInv Simulator.init := by
  refine ⟨rfl, goodnav_init, rfl, rfl, rfl, rfl,
    by norm_num [Simulator.init, MissionSimulator.init], by decide⟩

/-- Running the loop body `n ≤ 900 − (ticks logged)` more times from an
invariant state never raises, keeps the invariant, logs exactly one entry
per tick, and every logged entry still reports the GPS `ACTIVE`. -/
lemma runFrom_ok (env : ℕ → TickInput) :
    ∀ (n : ℕ) (s : Simulator) (i : ℕ), SimInv s →
      (∀ e ∈ s.trajectory_data, e.gps_status = "ACTIVE") →
      s.trajectory_data.length + n ≤ 900 →
      ∃ s', Simulator.runFrom env s i n = Except.ok s' ∧ SimInv s' ∧
        s'.trajectory_data.length = s.trajectory_data.length + n ∧
        ∀ e ∈ s'.trajectory_data, e.gps_status = "ACTIVE" := by
  intro n
  induction n with
  | zero =>
    intro s i hinv hall _
    exact ⟨s, rfl, hinv, by omega, hall⟩
  | succ n ih =>
    intro s i hinv hall hlen
    obtain ⟨s1, hstep, hinv1, hlen1, hmem1⟩ := step_inv s (env i) hinv
    have hall1 : ∀ e ∈ s1.trajectory_data, e.gps_status = "ACTIVE" := by
      intro e he
      rcases hmem1 e he with h | h
      · exact hall e h
      · exact h
    unfold Simulator.runFrom
    rw [hstep]
    dsimp only
    by_cases hlt : s1.trajectory_data.length < 900
    · have hactive : s1.mission.mission_active = true := by
        rw [hinv1.2.2.2.2.2.2.2]
        simp [hlt]
      rw [if_pos hactive]
      obtain ⟨s2, hrun, hinv2, hlen2, hall2⟩ :=
        ih s1 (i + 1) hinv1 hall1 (by omega)
      exact ⟨s2, hrun, hinv2, by omega, hall2⟩
    · have hn0 : n = 0 := by omega
      have hactive : s1.mission.mission_active = false := by
        rw [hinv1.2.2.2.2.2.2.2]
        simp [hlt]
      rw [if_neg (by simp [hactive])]
      exact ⟨s1, rfl, hinv1, by omega, hall1⟩

/-- C1 (behaviour of the code at the failing inputs): for every noise and
physics input stream and every run of up to 900 ticks from a fresh
`Simulator`, every step succeeds and every trajectory entry — including
each tick whose elapsed time lies in the jamming window [3, 6) — records
`gps_status = "ACTIVE"` (a valid GPS fix): `Simulator.step` never passes
the Mission Controller's jammed flag into the Sensor Model, whose
`gps_jammed` flag stays `False` forever, so `measure_gps` always returns
`valid = True`, contradicting the specified 0% validity during jamming. -/
theorem C1_gps_always_valid (env : ℕ → TickInput) (n : ℕ) (h : n ≤ 900) :
    ∃ s', Simulator.runFrom env Simulator.init 0 n = Except.ok s' ∧
      s'.trajectory_data.length = n ∧
      ∀ e ∈ s'.trajectory_data, e.gps_status = "ACTIVE" := by
  obtain ⟨s', hrun, _, hlen, hall⟩ := runFrom_ok env n Simulator.init 0
    simInv_init (by simp [Simulator.init]) (by simpa [Simulator.init] using h)
  exact ⟨s', hrun, by simpa [Simulator.init] using hlen, hall⟩

/-- Witness for C1: 31 ticks cover elapsed times through 3.1 s, inside the
jamming window, with a concrete input stream. -/
theorem C1_witness :
    ∃ s', Simulator.runFrom (fun _ => constInput) Simulator.init 0 31 =
        Except.ok s' ∧
      s'.trajectory_data.length = 31 ∧
      ∀ e ∈ s'.trajectory_data, e.gps_status = "ACTIVE" :=
  C1_gps_always_valid (fun _ => constInput) 31 (by norm_num)

/-- C9: for any duration whose step count `int(duration/dt)` lies between
1 and 29, `run(duration)` raises an uncaught IndexError while assembling
`jamming_analysis`: `error_before_jam` indexes trajectory entry
`int(jamming_start_time/dt) − 1 = 29`, guarded only by the trajectory
being nonempty. -/
theorem C9_short_run_index_error (env : ℕ → TickInput) (duration : ℚ)
    (h1 : 1 ≤ pyInt (duration / Simulator.init.dt))
    (h2 : pyInt (duration / Simulator.init.dt) ≤ 29) :
    Simulator.init.run env duration =
      Except.error "IndexError: list index out of range" := by
  set k := (pyInt (duration / Simulator.init.dt)).toNat with hkdef
  have hk1 : 1 ≤ k := by omega
  have hk2 : k ≤ 29 := by omega
  have hlen0 : Simulator.init.trajectory_data.length = 0 := rfl
  unfold Simulator.run
  obtain ⟨s', hrun, hinv, hlen, -⟩ :=
    runFrom_ok env k Simulator.init 0 simInv_init
      (by simp [Simulator.init]) (by omega)
  rw [hrun]
  dsimp only
  obtain ⟨-, -, hdt', -, -, hjs', -, -⟩ := hinv
  have hlenk : s'.trajectory_data.length = k := by omega
  have hnone : pyGet s'.trajectory_data (29 : ℤ) = none := by
    unfold pyGet
    rw [if_pos (by norm_num)]
    apply List.get?_eq_none.mpr
    omega
  unfold Simulator.get_results
  dsimp only
  rw [if_pos (show 0 < s'.trajectory_data.length by omega)]
  rw [hjs', hdt']
  have hidx : pyInt ((3 : ℚ) / (1 / 10)) - 1 = (29 : ℤ) := by
    have h30 : ((3 : ℚ) / (1 / 10)) = ((30 : ℤ) : ℚ) := by norm_num
    unfold pyInt
    rw [h30, if_pos (by norm_num), Int.floor_intCast]
    norm_num
  rw [hidx, hnone]

/-- Witness for C9 at `duration = 1.0` (10 steps) with a concrete input
stream. -/
theorem C9_witness :
    Simulator.init.run (fun _ => constInput) 1 =
      Except.error "IndexError: list index out of range" :=
  C9_short_run_index_error (fun _ => constInput) 1
    (by norm_num [pyInt, Simulator.init])
    (by norm_num [pyInt, Simulator.init])

end UAV